import Mathlib

/-!
# libunifex: completion protocol, `via`, `then_execute`, `never`, `awaitable_sender`

A shallow embedding of

* `include/unifex/via.hpp`
* `include/unifex/then_execute.hpp`
* `include/unifex/never.hpp`
* `include/unifex/awaitable_sender.hpp`

Templates become Lean definitions that are generic over type classes standing
for the C++ concepts (`receiver`, `sender`, `submittable`, `has_blocking`).
A completion operation consumes the receiver it is called on (the C++ code
always passes the receiver as an rvalue) and yields the state of the world
after the call.  The receiver that terminates a chain records every signal
it is given, so that "which signal, how often" is observable.  Receivers are
move-constructible, and what a move leaves in its source is part of the
receiver concept, so that a completion operation called on a receiver that
has been moved from is told apart from one called on the receiver itself.
-/

namespace unifex

/-! ## Completion protocol -/

/-- The three completion signals of the protocol, with their payloads. -/
inductive Signal (V Err : Type) where
  | set_value (v : V)
  | set_error (e : Err)
  | set_done
  deriving DecidableEq, Repr

/-- Error payloads handed to `set_error`: a value of an error type declared by
some sender, or the `std::exception_ptr` obtained from
`std::current_exception()` while an exception `x` is being handled. -/
inductive error_payload (E X : Type) where
  | error (e : E)
  | exception_ptr (x : X)
  deriving DecidableEq, Repr

/-- The call `std::current_exception()` inside a handler for the exception `x`. -/
def std.current_exception {E X : Type} (x : X) : error_payload E X :=
  error_payload.exception_ptr x

/-- Modelled from the spec: the Receiver concept (`receiver_concepts.hpp` is
not part of the excerpt).  A receiver exposes the three completion
operations; `Out` is the state of the world after the receiver has been
completed.  A receiver is move-constructible: `moved_from r` is what is left
in the source object once another receiver has been move-constructed from
`r`, the new object being `r` as it was. -/
class receiver (R : Type) (V Err Out : outParam Type) where
  set_value : R → V → Out
  set_error : R → Err → Out
  set_done : R → Out
  moved_from : R → R

/-- The customisation point `cpo::set_value(r, values...)`. -/
def cpo.set_value {R V Err Out : Type} [receiver R V Err Out] (r : R) (v : V) : Out :=
  receiver.set_value r v

/-- The customisation point `cpo::set_error(r, e)`. -/
def cpo.set_error {R V Err Out : Type} [receiver R V Err Out] (r : R) (e : Err) : Out :=
  receiver.set_error r e

/-- The customisation point `cpo::set_done(r)`. -/
def cpo.set_done {R V Err Out : Type} [receiver R V Err Out] (r : R) : Out :=
  receiver.set_done r

/-- Delivery of one completion signal to a receiver. -/
def Signal.deliver {R V Err Out : Type} [receiver R V Err Out] (s : Signal V Err) (r : R) : Out :=
  match s with
  | Signal.set_value v => cpo.set_value r v
  | Signal.set_error e => cpo.set_error r e
  | Signal.set_done => cpo.set_done r

/-- A terminal receiver that records, in order, every completion signal it is
given. -/
structure recording_receiver (V Err : Type) where
  received : List (Signal V Err)
  deriving DecidableEq, Repr

/-- A `recording_receiver` is moved by copying, the way a trivially copyable
receiver is that holds no more than a pointer to its consumer: the source of
a move is left as it was. -/
instance recording_receiver.instReceiver {V Err : Type} :
    receiver (recording_receiver V Err) V Err (recording_receiver V Err) where
  set_value r v := ⟨r.received ++ [Signal.set_value v]⟩
  set_error r e := ⟨r.received ++ [Signal.set_error e]⟩
  set_done r := ⟨r.received ++ [Signal.set_done]⟩
  moved_from r := r

/-- A terminal receiver that owns its state, the way a receiver holding a
`std::unique_ptr` does: move construction hands the state to the new object
and leaves the source without it, and a completion operation called on a
receiver that has been moved from reaches no consumer.  `received` is what
the consumer has been given, in order; `owns_state` tells whether this object
still holds the state. -/
structure owning_receiver (V Err : Type) where
  received : List (Signal V Err)
  owns_state : Bool
  deriving DecidableEq, Repr

instance owning_receiver.instReceiver {V Err : Type} :
    receiver (owning_receiver V Err) V Err (owning_receiver V Err) where
  set_value r v := if r.owns_state then ⟨r.received ++ [Signal.set_value v], true⟩ else r
  set_error r e := if r.owns_state then ⟨r.received ++ [Signal.set_error e], true⟩ else r
  set_done r := if r.owns_state then ⟨r.received ++ [Signal.set_done], true⟩ else r
  moved_from r := ⟨r.received, false⟩

/-- Modelled from the spec: the Sender / Operation-State contract
(`sender_concepts.hpp` is not part of the excerpt).  `start_connected s r` is
what `start(connect(s, r))` does to the receiver `r`. -/
class sender (S : Type) (V Err : outParam Type) where
  start_connected : {R Out : Type} → [receiver R V Err Out] → S → R → Out

/-- Modelled from the spec: `submit(sender, receiver)` of `submit.hpp` (not
part of the excerpt): connects the sender to the receiver and starts the
operation; "constructing/submitting the successor operation may throw a local
exception".  The successor of a `via_sender` completes with an empty value
pack, the adapters' `value()` taking no argument. -/
class submittable (S : Type) (Err X : outParam Type) where
  submit : {R Out : Type} → [receiver R Unit Err Out] → S → R → Except X Out

/-- The free function `submit(sender, receiver)`. -/
def submit {S Err X R Out : Type} [submittable S Err X] [receiver R Unit Err Out]
    (s : S) (r : R) : Except X Out :=
  submittable.submit s r

/-! ## Blocking trait -/

/-- Modelled from the spec: the Blocking Trait enumeration (`blocking.hpp` is
not part of the excerpt): "never", "always inline", "always (but not
necessarily inline)", "maybe". -/
inductive blocking_kind where
  | never
  | always_inline
  | always
  | maybe
  deriving DecidableEq, Repr

/-- The customisation point `cpo::blocking` as a concept. -/
class has_blocking (S : Type) where
  blocking : S → blocking_kind

/-- The customisation point `cpo::blocking(sender)`. -/
def cpo.blocking {S : Type} [has_blocking S] (s : S) : blocking_kind :=
  has_blocking.blocking s

/-! ## Senders of the environment -/

/-- A protocol-conforming sender of the environment, given by the blocking
kind it reports and the one completion signal its operation delivers. -/
structure outcome_sender (V Err : Type) where
  blocking_ : blocking_kind
  outcome : Signal V Err
  deriving DecidableEq, Repr

instance outcome_sender.instSender {V Err : Type} : sender (outcome_sender V Err) V Err where
  start_connected s r := s.outcome.deliver r

instance outcome_sender.instBlocking {V Err : Type} : has_blocking (outcome_sender V Err) where
  blocking s := s.blocking_

/-- What submitting a sender does: the submission throws `x` before anything
is delivered, or the operation delivers one completion signal. -/
inductive submit_behaviour (Err X : Type) where
  | throws (x : X)
  | completes (s : Signal Unit Err)
  deriving DecidableEq, Repr

/-- A sender of the environment that is used as a successor, given by the
blocking kind it reports and by what submitting it does. -/
structure submit_sender (Err X : Type) where
  blocking_ : blocking_kind
  behaviour : submit_behaviour Err X
  deriving DecidableEq, Repr

instance submit_sender.instSubmittable {Err X : Type} : submittable (submit_sender Err X) Err X where
  submit s r :=
    match s.behaviour with
    | submit_behaviour.throws x => Except.error x
    | submit_behaviour.completes sig => Except.ok (sig.deliver r)

instance submit_sender.instBlocking {Err X : Type} : has_blocking (submit_sender Err X) where
  blocking s := s.blocking_

/-! ## `via.hpp` -/

/-- The class template `via_sender<Predecessor, Successor>`. -/
structure via_sender (Predecessor Successor : Type) where
  pred_ : Predecessor
  succ_ : Successor

/-- The function `tag_invoke(tag_t<cpo::blocking>, const via_sender&)`. -/
def via_sender.blocking {Predecessor Successor : Type}
    [has_blocking Predecessor] [has_blocking Successor]
    (sender : via_sender Predecessor Successor) : blocking_kind :=
  let predBlocking := cpo.blocking sender.pred_
  let succBlocking := cpo.blocking sender.succ_
  if predBlocking = blocking_kind.never ∧ succBlocking = blocking_kind.never then
    blocking_kind.never
  else if predBlocking = blocking_kind.always_inline ∧
      predBlocking = blocking_kind.always_inline then
    blocking_kind.always_inline
  else if (predBlocking = blocking_kind.always_inline ∨ predBlocking = blocking_kind.always) ∧
      (succBlocking = blocking_kind.always_inline ∨ succBlocking = blocking_kind.always) then
    blocking_kind.always
  else
    blocking_kind.maybe

/-- The blocking kind that the specification gives for a `via_sender` whose
predecessor reports `p` and whose successor reports `s`: "never" when both
are "never"; "always inline" when both are "always inline"; "always" when
both are inline-or-always; otherwise "maybe". -/
def via_sender.blocking_spec (p s : blocking_kind) : blocking_kind :=
  if p = blocking_kind.never ∧ s = blocking_kind.never then
    blocking_kind.never
  else if p = blocking_kind.always_inline ∧ s = blocking_kind.always_inline then
    blocking_kind.always_inline
  else if (p = blocking_kind.always_inline ∨ p = blocking_kind.always) ∧
      (s = blocking_kind.always_inline ∨ s = blocking_kind.always) then
    blocking_kind.always
  else
    blocking_kind.maybe

instance via_sender.instBlocking {Predecessor Successor : Type}
    [has_blocking Predecessor] [has_blocking Successor] :
    has_blocking (via_sender Predecessor Successor) where
  blocking s := s.blocking

/-- The adapter `via_sender::value_receiver<Receiver, Values...>`. -/
structure via_sender.value_receiver (Receiver Values : Type) where
  values_ : Values
  receiver_ : Receiver

/-- The member `value_receiver::value()`. -/
def via_sender.value_receiver.value {Receiver Values Err Out : Type}
    [receiver Receiver Values Err Out]
    (self : via_sender.value_receiver Receiver Values) : Out :=
  cpo.set_value self.receiver_ self.values_

/-- The member `value_receiver::error(Error&&)`. -/
def via_sender.value_receiver.error {Receiver Values Err Out : Type}
    [receiver Receiver Values Err Out]
    (self : via_sender.value_receiver Receiver Values) (error : Err) : Out :=
  cpo.set_error self.receiver_ error

/-- The member `value_receiver::done()`. -/
def via_sender.value_receiver.done {Receiver Values Err Out : Type}
    [receiver Receiver Values Err Out]
    (self : via_sender.value_receiver Receiver Values) : Out :=
  cpo.set_done self.receiver_

instance via_sender.value_receiver.instReceiver {Receiver Values Err Out : Type}
    [receiver Receiver Values Err Out] :
    receiver (via_sender.value_receiver Receiver Values) Unit Err Out where
  set_value r _ := r.value
  set_error r e := r.error e
  set_done r := r.done
  moved_from r := ⟨r.values_, receiver.moved_from r.receiver_⟩

/-- The adapter `via_sender::error_receiver<Receiver, Error>`. -/
structure via_sender.error_receiver (Receiver Error : Type) where
  error_ : Error
  receiver_ : Receiver

/-- The member `error_receiver::value()`. -/
def via_sender.error_receiver.value {Receiver Values Err Out : Type}
    [receiver Receiver Values Err Out]
    (self : via_sender.error_receiver Receiver Err) : Out :=
  cpo.set_error self.receiver_ self.error_

/-- The member `error_receiver::error(OtherError&&)`. -/
def via_sender.error_receiver.error {Receiver Values Err Out : Type}
    [receiver Receiver Values Err Out]
    (self : via_sender.error_receiver Receiver Err) (otherError : Err) : Out :=
  cpo.set_error self.receiver_ otherError

/-- The member `error_receiver::done()`. -/
def via_sender.error_receiver.done {Receiver Values Err Out : Type}
    [receiver Receiver Values Err Out]
    (self : via_sender.error_receiver Receiver Err) : Out :=
  cpo.set_done self.receiver_

instance via_sender.error_receiver.instReceiver {Receiver Values Err Out : Type}
    [receiver Receiver Values Err Out] :
    receiver (via_sender.error_receiver Receiver Err) Unit Err Out where
  set_value r _ := r.value
  set_error r e := r.error e
  set_done r := r.done
  moved_from r := ⟨r.error_, receiver.moved_from r.receiver_⟩

/-- The adapter `via_sender::done_receiver<Receiver>`. -/
structure via_sender.done_receiver (Receiver : Type) where
  receiver_ : Receiver

/-- The member `done_receiver::value()`. -/
def via_sender.done_receiver.value {Receiver Values Err Out : Type}
    [receiver Receiver Values Err Out]
    (self : via_sender.done_receiver Receiver) : Out :=
  cpo.set_done self.receiver_

/-- The member `done_receiver::error(OtherError&&)`. -/
def via_sender.done_receiver.error {Receiver Values Err Out : Type}
    [receiver Receiver Values Err Out]
    (self : via_sender.done_receiver Receiver) (otherError : Err) : Out :=
  cpo.set_error self.receiver_ otherError

/-- The member `done_receiver::done()`. -/
def via_sender.done_receiver.done {Receiver Values Err Out : Type}
    [receiver Receiver Values Err Out]
    (self : via_sender.done_receiver Receiver) : Out :=
  cpo.set_done self.receiver_

instance via_sender.done_receiver.instReceiver {Receiver Values Err Out : Type}
    [receiver Receiver Values Err Out] :
    receiver (via_sender.done_receiver Receiver) Unit Err Out where
  set_value r _ := r.value
  set_error r e := r.error e
  set_done r := r.done
  moved_from r := ⟨receiver.moved_from r.receiver_⟩

/-- The receiver `via_sender::predecessor_receiver<Receiver>`, to which the
predecessor is connected. -/
structure via_sender.predecessor_receiver (Successor Receiver : Type) where
  successor_ : Successor
  receiver_ : Receiver

/-- The member `predecessor_receiver::value(Values&&...) &&`.  The argument of
`submit` is built before `submit` is entered: the `value_receiver` holds the
values and a receiver move-constructed from `(Receiver &&) receiver_`, which
leaves the member `receiver_` moved from.  An exception thrown by the
submission is caught, and `cpo::set_error` is called with the current
exception on that member, the receiver that has been moved from. -/
def via_sender.predecessor_receiver.value {Successor Receiver Values E X Out : Type}
    [submittable Successor (error_payload E X) X]
    [receiver Receiver Values (error_payload E X) Out]
    (self : via_sender.predecessor_receiver Successor Receiver) (values : Values) : Out :=
  let adapter : via_sender.value_receiver Receiver Values := ⟨values, self.receiver_⟩
  let receiver_ : Receiver := receiver.moved_from self.receiver_
  match submit self.successor_ adapter with
  | Except.ok out => out
  | Except.error x => cpo.set_error receiver_ (std.current_exception x)

/-- The member `predecessor_receiver::error(Error&&) &&`: as `value`, with an
`error_receiver` move-constructed from `receiver_`; the handler calls
`cpo::set_error` on the member that has been moved from. -/
def via_sender.predecessor_receiver.error {Successor Receiver Values E X Out : Type}
    [submittable Successor (error_payload E X) X]
    [receiver Receiver Values (error_payload E X) Out]
    (self : via_sender.predecessor_receiver Successor Receiver)
    (error : error_payload E X) : Out :=
  let adapter : via_sender.error_receiver Receiver (error_payload E X) :=
    ⟨error, self.receiver_⟩
  let receiver_ : Receiver := receiver.moved_from self.receiver_
  match submit self.successor_ adapter with
  | Except.ok out => out
  | Except.error x => cpo.set_error receiver_ (std.current_exception x)

/-- The member `predecessor_receiver::done() &&`: as `value`, with a
`done_receiver` move-constructed from `receiver_`; the handler calls
`cpo::set_error` on the member that has been moved from. -/
def via_sender.predecessor_receiver.done {Successor Receiver Values E X Out : Type}
    [submittable Successor (error_payload E X) X]
    [receiver Receiver Values (error_payload E X) Out]
    (self : via_sender.predecessor_receiver Successor Receiver) : Out :=
  let adapter : via_sender.done_receiver Receiver := ⟨self.receiver_⟩
  let receiver_ : Receiver := receiver.moved_from self.receiver_
  match submit self.successor_ adapter with
  | Except.ok out => out
  | Except.error x => cpo.set_error receiver_ (std.current_exception x)

instance via_sender.predecessor_receiver.instReceiver
    {Successor Receiver Values E X Out : Type}
    [submittable Successor (error_payload E X) X]
    [receiver Receiver Values (error_payload E X) Out] :
    receiver (via_sender.predecessor_receiver Successor Receiver)
      Values (error_payload E X) Out where
  set_value r v := r.value v
  set_error r e := r.error e
  set_done r := r.done
  moved_from r := ⟨r.successor_, receiver.moved_from r.receiver_⟩

/-- Modelled from the spec: the Operation State made by `cpo::connect`
(`sender_concepts.hpp` is not part of the excerpt): it owns the sender's
description and the receiver until it is started. -/
structure connected_operation (S R : Type) where
  sender_ : S
  receiver_ : R

/-- The customisation point `cpo::connect(sender, receiver)`; it does not start
work. -/
def cpo.connect {S R : Type} (s : S) (r : R) : connected_operation S R :=
  ⟨s, r⟩

/-- The customisation point `start(operation)`. -/
def cpo.start {S R V Err Out : Type} [sender S V Err] [receiver R V Err Out]
    (op : connected_operation S R) : Out :=
  sender.start_connected op.sender_ op.receiver_

/-- The member `via_sender::connect(Receiver&&) &&`. -/
def via_sender.connect {Predecessor Successor Receiver : Type}
    (self : via_sender Predecessor Successor) (receiver : Receiver) :
    connected_operation Predecessor (via_sender.predecessor_receiver Successor Receiver) :=
  cpo.connect self.pred_ (via_sender.predecessor_receiver.mk self.succ_ receiver)

instance via_sender.instSender {Predecessor Successor Values E X : Type}
    [sender Predecessor Values (error_payload E X)]
    [submittable Successor (error_payload E X) X] :
    sender (via_sender Predecessor Successor) Values (error_payload E X) where
  start_connected s r := cpo.start (s.connect r)

/-- The function template `via(succ, pred)`. -/
def via {Predecessor Successor : Type} (succ : Successor) (pred : Predecessor) :
    via_sender Predecessor Successor :=
  ⟨pred, succ⟩

/-- A sender completes with the signal `o`: started on any receiver, its
operation delivers `o` to that receiver, once, and nothing else. -/
def completes_with {S V Err : Type} [sender S V Err] (s : S) (o : Signal V Err) : Prop :=
  ∀ (R Out : Type) [receiver R V Err Out] (a : R), sender.start_connected s a = o.deliver a

/-- Submitting a sender succeeds and its operation delivers the signal `c`:
on any receiver, `submit` returns normally after `c` was delivered to that
receiver, once, and nothing else. -/
def submit_completes_with {S Err X : Type} [submittable S Err X] (s : S)
    (c : Signal Unit Err) : Prop :=
  ∀ (R Out : Type) [receiver R Unit Err Out] (a : R), submit s a = Except.ok (c.deliver a)

/-- Submitting a sender throws `x`: on any receiver, `submit` exits with the
exception `x` and the receiver has not been completed. -/
def submit_throws {S Err X : Type} [submittable S Err X] (s : S) (x : X) : Prop :=
  ∀ (R Out : Type) [receiver R Unit Err Out] (a : R), submit s a = Except.error x

/-! ## `never.hpp` -/

/-- Modelled from the spec: the Stop Token contract (`stop_token_concepts.hpp`
and `get_stop_token.hpp` are not part of the excerpt).  A token answers
`stop_possible()`, "a property fixed for the lifetime of the token"; its type
carries the trait `is_stop_never_possible_v`, true of the token types that can
never signal cancellation, whose tokens all answer `false`. -/
structure stop_token where
  is_stop_never_possible_v : Bool
  stop_possible : Bool
  never_possible_answers_false : is_stop_never_possible_v = true → stop_possible = false
  deriving DecidableEq

/-- The customisation point `get_stop_token(receiver)` as a concept. -/
class has_stop_token (R : Type) where
  get_stop_token : R → stop_token

/-- The customisation point `get_stop_token(receiver)`. -/
def get_stop_token {R : Type} [has_stop_token R] (r : R) : stop_token :=
  has_stop_token.get_stop_token r

/-- A terminal receiver that owns a stop token and records, in order, every
completion signal it is given. -/
structure stoppable_receiver (V Err : Type) where
  received : List (Signal V Err)
  token : stop_token
  deriving DecidableEq

instance stoppable_receiver.instReceiver {V Err : Type} :
    receiver (stoppable_receiver V Err) V Err (stoppable_receiver V Err) where
  set_value r v := ⟨r.received ++ [Signal.set_value v], r.token⟩
  set_error r e := ⟨r.received ++ [Signal.set_error e], r.token⟩
  set_done r := ⟨r.received ++ [Signal.set_done], r.token⟩
  moved_from r := r

instance stoppable_receiver.instStopToken {V Err : Type} :
    has_stop_token (stoppable_receiver V Err) where
  get_stop_token r := r.token

/-- Modelled from the spec: the object `stop_token_type::callback_type<F>`
whose construction registers a callback with a token and whose destruction
removes the registration. -/
structure stop_callback where
  token : stop_token
  deriving DecidableEq

/-- The struct `never_sender`. -/
structure never_sender where
  deriving DecidableEq

/-- The class template `never_sender::operation<Receiver>`; `stopCallback_` is
a `manual_lifetime`, which holds a constructed callback object or none. -/
structure never_sender.operation (Receiver : Type) where
  receiver_ : Receiver
  stopCallback_ : Option stop_callback

/-- The call operator of `never_sender::operation::cancel_callback`:
`op_.stopCallback_.destruct()` and then `cpo::set_done` on the receiver. -/
def never_sender.operation.cancel_callback {Receiver V Err : Type}
    [receiver Receiver V Err Receiver]
    (op_ : never_sender.operation Receiver) : never_sender.operation Receiver :=
  let destructed : never_sender.operation Receiver := ⟨op_.receiver_, none⟩
  ⟨cpo.set_done destructed.receiver_, destructed.stopCallback_⟩

/-- The member `never_sender::connect(Receiver&&)`.  The result is `none` when
the instantiation of `operation<Receiver>` is ill-formed, its `static_assert`
on `is_stop_never_possible_v<stop_token_type>` failing; otherwise the
constructor stores the receiver and leaves `stopCallback_` unconstructed. -/
def never_sender.connect {Receiver : Type} [has_stop_token Receiver]
    (_self : never_sender) (receiver : Receiver) : Option (never_sender.operation Receiver) :=
  if (get_stop_token receiver).is_stop_never_possible_v then none
  else some ⟨receiver, none⟩

/-- The member `never_sender::operation::start()`.  `NDEBUG` tells whether
`assert` is compiled out; the result is `none` when the assertion aborts the
process.  Otherwise the callback object is constructed, which registers
`cancel_callback` with the receiver's stop token. -/
def never_sender.operation.start {Receiver : Type} [has_stop_token Receiver]
    (NDEBUG : Bool) (op : never_sender.operation Receiver) :
    Option (never_sender.operation Receiver) :=
  if !NDEBUG && !(get_stop_token op.receiver_).stop_possible then none
  else some ⟨op.receiver_, some ⟨get_stop_token op.receiver_⟩⟩

/-- Modelled from the spec: a cancellation request on the source behind the
receiver's stop token.  The registered callback "fires when cancellation is
requested"; a token for which stop is not possible has no source on which a
request could be made, and without a live registration nothing is called. -/
def request_stop {Receiver V Err : Type} [receiver Receiver V Err Receiver]
    (op : never_sender.operation Receiver) : never_sender.operation Receiver :=
  match op.stopCallback_ with
  | some callback => if callback.token.stop_possible then op.cancel_callback else op
  | none => op

/-- The struct `never_stream`; `next()` is `never_sender`. -/
structure never_stream where
  deriving DecidableEq

/-- The member `never_stream::next()`. -/
def never_stream.next (_self : never_stream) : never_sender :=
  {}

/-! ## `then_execute.hpp` -/

/-- Modelled from the spec: the Scheduler interface (`scheduler_concepts.hpp`
is not part of the excerpt): "exposes `schedule() -> Sender` that completes
with a value when the calling context has switched". -/
class scheduler (Scheduler : Type) (ScheduleSender : outParam Type) where
  schedule : Scheduler → ScheduleSender

/-- The customisation point `cpo::schedule(scheduler)`. -/
def cpo.schedule {Scheduler ScheduleSender : Type} [scheduler Scheduler ScheduleSender]
    (s : Scheduler) : ScheduleSender :=
  scheduler.schedule s

/-- A scheduler of the environment, given by the sender its `schedule()`
returns. -/
structure context_scheduler (Err X : Type) where
  schedule_sender : submit_sender Err X
  deriving DecidableEq, Repr

instance context_scheduler.instScheduler {Err X : Type} :
    scheduler (context_scheduler Err X) (submit_sender Err X) where
  schedule s := s.schedule_sender

/-- A receiver that keeps the one signal it is completed with. -/
structure outcome_capture (V Err : Type) where
  deriving DecidableEq

instance outcome_capture.instReceiver {V Err : Type} :
    receiver (outcome_capture V Err) V Err (Signal V Err) where
  set_value _ v := Signal.set_value v
  set_error _ e := Signal.set_error e
  set_done _ := Signal.set_done
  moved_from r := r

/-- Modelled from the spec: the sender returned by `typed_via(succ, pred)`
(`typed_via.hpp` is not part of the excerpt). -/
structure typed_via_sender (Predecessor Successor : Type) where
  pred_ : Predecessor
  succ_ : Successor

/-- Modelled from the spec: `typed_via(succ, pred)` (`typed_via.hpp` is not part
of the excerpt), the composition of section 4.2 that `then_execute` applies. -/
def typed_via {Predecessor Successor : Type} (succ : Successor) (pred : Predecessor) :
    typed_via_sender Predecessor Successor :=
  ⟨pred, succ⟩

/-- Modelled from the spec: what a started `typed_via` operation does
(`typed_via.hpp` is not part of the excerpt), in the words of section 4.2:
the predecessor's outcome is captured "without yet forwarding it"; then the
successor is run; "constructing/submitting the successor operation may throw
a local exception; this is caught and converted into an error signal
delivered directly to the final Receiver"; when the successor completes with
a value the originally captured outcome is re-delivered to the final
Receiver, and "if the successor instead errors or cancels, that outcome
overrides and is forwarded instead". -/
def typed_via_sender.start_connected {Predecessor Successor Values E X R Out : Type}
    [sender Predecessor Values (error_payload E X)]
    [submittable Successor (error_payload E X) X]
    [receiver R Values (error_payload E X) Out]
    (self : typed_via_sender Predecessor Successor) (r : R) : Out :=
  let captured : Signal Values (error_payload E X) :=
    sender.start_connected self.pred_ (outcome_capture.mk : outcome_capture Values (error_payload E X))
  match submit self.succ_ (outcome_capture.mk : outcome_capture Unit (error_payload E X)) with
  | Except.error x => cpo.set_error r (std.current_exception x)
  | Except.ok (Signal.set_value _) => captured.deliver r
  | Except.ok (Signal.set_error e2) => cpo.set_error r e2
  | Except.ok Signal.set_done => cpo.set_done r

instance typed_via_sender.instSender {Predecessor Successor Values E X : Type}
    [sender Predecessor Values (error_payload E X)]
    [submittable Successor (error_payload E X) X] :
    sender (typed_via_sender Predecessor Successor) Values (error_payload E X) where
  start_connected s r := s.start_connected r

/-- Modelled from the spec: the sender returned by `transform(pred, func)`
(`transform.hpp` is not part of the excerpt), the "value-mapping combinator
(external collaborator)". -/
structure transform_sender (Predecessor Func : Type) where
  pred_ : Predecessor
  func_ : Func

/-- Modelled from the spec: the receiver a `transform` sender connects its
predecessor to (`transform.hpp` is not part of the excerpt). -/
structure transform_receiver (Func Receiver : Type) where
  func_ : Func
  receiver_ : Receiver

instance transform_receiver.instReceiver {V W Err Receiver Out : Type}
    [receiver Receiver W Err Out] :
    receiver (transform_receiver (V → W) Receiver) V Err Out where
  set_value r v := cpo.set_value r.receiver_ (r.func_ v)
  set_error r e := cpo.set_error r.receiver_ e
  set_done r := cpo.set_done r.receiver_
  moved_from r := ⟨r.func_, receiver.moved_from r.receiver_⟩

instance transform_sender.instSender {Predecessor V W Err : Type}
    [sender Predecessor V Err] :
    sender (transform_sender Predecessor (V → W)) W Err where
  start_connected s r := sender.start_connected s.pred_ (transform_receiver.mk s.func_ r)

/-- Modelled from the spec: `transform(pred, func)` (`transform.hpp` is not part
of the excerpt): the value of the predecessor is mapped by `func`, an error or
cancellation passes through. -/
def transform {Predecessor Func : Type} (pred : Predecessor) (func : Func) :
    transform_sender Predecessor Func :=
  ⟨pred, func⟩

/-- The function template `then_execute(s, p, f)`. -/
def then_execute {Scheduler ScheduleSender Predecessor Func : Type}
    [scheduler Scheduler ScheduleSender]
    (s : Scheduler) (p : Predecessor) (f : Func) :
    transform_sender (typed_via_sender Predecessor ScheduleSender) Func :=
  transform (typed_via (cpo.schedule s) p) f

/-- The composition that the specification gives for `then_execute(s, p, f)`:
`via` of section 4.2 with `schedule(s)` as the successor and `p` as the
predecessor, under the value-mapping combinator. -/
def then_execute_spec {Scheduler ScheduleSender Predecessor Func : Type}
    [scheduler Scheduler ScheduleSender]
    (s : Scheduler) (p : Predecessor) (f : Func) :
    transform_sender (via_sender Predecessor ScheduleSender) Func :=
  transform (via (cpo.schedule s) p) f

/-! ## `awaitable_sender.hpp` -/

/-- Modelled from the spec: the Awaitable/suspendable computation interface
(`coroutine_concepts.hpp` is not part of the excerpt): it "supports being
driven to a single value-or-exception outcome".  `is_void_result` is the
trait `std::is_void_v<await_result_t<Awaitable>>`; `await_ready` tells whether
`co_await` goes on without suspending the awaiting coroutine; `await_resume`
is the outcome with which the awaiting coroutine goes on. -/
structure awaitable (Result X : Type) where
  is_void_result : Bool
  await_ready : Bool
  await_resume : Except X Result

/-- A terminal receiver whose completion operations may exit with an
exception.  It records, in order, every completion call made on it, also a
call that exits with an exception; `set_value_throws` and `set_error_throws`
give the exception with which `set_value` and `set_error` exit, if they do.
The world after a call is the receiver as the call leaves it together with
the exception the call exits with, if any. -/
structure throwing_receiver (V Err X : Type) where
  received : List (Signal V Err)
  set_value_throws : Option X
  set_error_throws : Option X
  deriving DecidableEq, Repr

instance throwing_receiver.instReceiver {V Err X : Type} :
    receiver (throwing_receiver V Err X) V Err (throwing_receiver V Err X × Option X) where
  set_value r v :=
    (⟨r.received ++ [Signal.set_value v], r.set_value_throws, r.set_error_throws⟩,
      r.set_value_throws)
  set_error r e :=
    (⟨r.received ++ [Signal.set_error e], r.set_value_throws, r.set_error_throws⟩,
      r.set_error_throws)
  set_done r :=
    (⟨r.received ++ [Signal.set_done], r.set_value_throws, r.set_error_throws⟩, none)
  moved_from r := r

/-- Where the driving coroutine of `awaitable_sender::connect` stands. -/
inductive coroutine_state where
  | initial_suspend
  | running
  | co_await_suspended
  | co_yield_suspended
  | terminated
  deriving DecidableEq, Repr

/-- The coroutine frame behind `detail::sender_task::coro_`: the parameters
`awaitable` and `receiver` of the coroutine lambda in
`awaitable_sender::connect`, and where it stands.
`completed_in` notes, for every call of a completion operation on
`receiver`, the state the coroutine was in when the call was made. -/
structure detail.coroutine_frame (Result X Receiver : Type) where
  awaitable : awaitable Result X
  receiver : Receiver
  state : coroutine_state
  completed_in : List coroutine_state

/-- The struct `detail::sender_task`. -/
structure detail.sender_task (Result X Receiver : Type) where
  coro_ : detail.coroutine_frame Result X Receiver

/-- The call `std::terminate()` made from inside the coroutine. -/
def detail.coroutine_frame.terminate {Result X Receiver : Type}
    (frame : detail.coroutine_frame Result X Receiver) :
    detail.coroutine_frame Result X Receiver :=
  ⟨frame.awaitable, frame.receiver, coroutine_state.terminated, frame.completed_in⟩

/-- A completion operation called on the frame's `receiver` through
`std::move(receiver)`: the frame with the receiver as the call leaves it, and
the exception the call exits with, if any. -/
def detail.coroutine_frame.complete {Result X Receiver : Type}
    (frame : detail.coroutine_frame Result X Receiver)
    (operation : Receiver → Receiver × Option X) :
    detail.coroutine_frame Result X Receiver × Option X :=
  (⟨frame.awaitable, (operation frame.receiver).1, frame.state,
      frame.completed_in ++ [frame.state]⟩,
    (operation frame.receiver).2)

/-- The members `promise_type::final_suspend()` and `return_void()`, each of
which is `std::terminate()`. -/
def detail.sender_task.promise_type.return_void {Result X Receiver : Type}
    (frame : detail.coroutine_frame Result X Receiver) :
    detail.coroutine_frame Result X Receiver :=
  frame.terminate

/-- The member `promise_type::unhandled_exception()`, reached by an exception
that leaves the body of the coroutine: `std::terminate()`. -/
def detail.sender_task.promise_type.unhandled_exception {Result X Receiver : Type}
    (frame : detail.coroutine_frame Result X Receiver) :
    detail.coroutine_frame Result X Receiver :=
  frame.terminate

/-- The expression `co_yield func`: `promise_type::yield_value(func)` makes an
awaiter whose `await_ready()` is `false`, so the coroutine is suspended, and
whose `await_suspend` then invokes `func`.  `await_suspend` is not `noexcept`:
when `func` exits with an exception the coroutine is resumed and the
exception is thrown again from the `co_yield` expression, which is the second
component of the result; otherwise the coroutine stays suspended. -/
def detail.sender_task.promise_type.yield_value {Result X Receiver : Type}
    (frame : detail.coroutine_frame Result X Receiver)
    (func : detail.coroutine_frame Result X Receiver →
      detail.coroutine_frame Result X Receiver × Option X) :
    detail.coroutine_frame Result X Receiver × Option X :=
  let suspended : detail.coroutine_frame Result X Receiver :=
    ⟨frame.awaitable, frame.receiver, coroutine_state.co_yield_suspended,
      frame.completed_in⟩
  match func suspended with
  | (after, none) => (after, none)
  | (after, some thrown) =>
    (⟨after.awaitable, after.receiver, coroutine_state.running, after.completed_in⟩,
      some thrown)

/-- The member `await_resume()` of the awaiter of `yield_value`, reached when
the coroutine is resumed after a `co_yield`: `std::terminate()`. -/
def detail.sender_task.promise_type.yield_value.await_resume {Result X Receiver : Type}
    (frame : detail.coroutine_frame Result X Receiver) :
    detail.coroutine_frame Result X Receiver :=
  frame.terminate

/-- The body of the coroutine lambda in `awaitable_sender::connect` after its
`try` block, `ex` holding the exception caught: `co_yield` of the lambda that
calls `cpo::set_error` with `ex`.  An exception with which that call exits is
thrown again outside any handler and reaches `unhandled_exception()`. -/
def awaitable_sender.connect.after_try {Result X E Receiver : Type}
    [receiver Receiver (List Result) (error_payload E X) (Receiver × Option X)]
    (frame : detail.coroutine_frame Result X Receiver) (ex : error_payload E X) :
    detail.coroutine_frame Result X Receiver :=
  match detail.sender_task.promise_type.yield_value frame
      (fun fr => fr.complete (fun r => cpo.set_error r ex)) with
  | (suspended, none) => suspended
  | (resumed, some _) => detail.sender_task.promise_type.unhandled_exception resumed

/-- The body of the coroutine lambda in `awaitable_sender::connect` from the
point where `co_await awaitable` is resumed, inside the `try` block.  On a
result: `co_yield` of the lambda that calls `cpo::set_value` (without
argument when the result type is `void`); when that call returns the
coroutine stays suspended there, and when it exits with an exception the
exception is thrown again from the `co_yield` inside the `try`.  The handler
`catch (...)` stores `std::current_exception()` in `ex`, for an exception of
`co_await` and for one of the `co_yield` alike, and the body goes on after
the `try` block. -/
def awaitable_sender.connect.after_co_await {Result X E Receiver : Type}
    [receiver Receiver (List Result) (error_payload E X) (Receiver × Option X)]
    (frame : detail.coroutine_frame Result X Receiver) :
    detail.coroutine_frame Result X Receiver :=
  match frame.awaitable.await_resume with
  | Except.ok result =>
    let yielded : detail.coroutine_frame Result X Receiver × Option X :=
      if frame.awaitable.is_void_result then
        detail.sender_task.promise_type.yield_value frame
          (fun fr => fr.complete (fun r => cpo.set_value r []))
      else
        detail.sender_task.promise_type.yield_value frame
          (fun fr => fr.complete (fun r => cpo.set_value r [result]))
    match yielded with
    | (suspended, none) => suspended
    | (resumed, some thrown) =>
      awaitable_sender.connect.after_try resumed (std.current_exception thrown)
  | Except.error x =>
    awaitable_sender.connect.after_try frame (std.current_exception x)

/-- The body of the coroutine lambda in `awaitable_sender::connect` from its
start: `co_await awaitable` suspends the coroutine unless the awaitable is
ready. -/
def awaitable_sender.connect.body {Result X E Receiver : Type}
    [receiver Receiver (List Result) (error_payload E X) (Receiver × Option X)]
    (frame : detail.coroutine_frame Result X Receiver) :
    detail.coroutine_frame Result X Receiver :=
  if frame.awaitable.await_ready then
    awaitable_sender.connect.after_co_await frame
  else
    ⟨frame.awaitable, frame.receiver, coroutine_state.co_await_suspended,
      frame.completed_in⟩

/-- The call `coro_.resume()` on the handle of the driving coroutine: it goes
on from where it is suspended.  A process that has terminated does nothing
more. -/
def detail.coroutine_frame.resume {Result X E Receiver : Type}
    [unifex.receiver Receiver (List Result) (error_payload E X) (Receiver × Option X)]
    (frame : detail.coroutine_frame Result X Receiver) :
    detail.coroutine_frame Result X Receiver :=
  let resumed : detail.coroutine_frame Result X Receiver :=
    ⟨frame.awaitable, frame.receiver, coroutine_state.running, frame.completed_in⟩
  match frame.state with
  | coroutine_state.initial_suspend => awaitable_sender.connect.body resumed
  | coroutine_state.co_await_suspended => awaitable_sender.connect.after_co_await resumed
  | coroutine_state.co_yield_suspended =>
    detail.sender_task.promise_type.yield_value.await_resume resumed
  | coroutine_state.running => frame
  | coroutine_state.terminated => frame

/-- The member `detail::sender_task::start()`. -/
def detail.sender_task.start {Result X E Receiver : Type}
    [receiver Receiver (List Result) (error_payload E X) (Receiver × Option X)]
    (self : detail.sender_task Result X Receiver) : detail.sender_task Result X Receiver :=
  ⟨self.coro_.resume⟩

/-- The class template `awaitable_sender<Awaitable>`. -/
structure awaitable_sender (Result X : Type) where
  awaitable_ : awaitable Result X

/-- The member `awaitable_sender::connect(Receiver&&) &&`: the coroutine is
created with the awaitable and the receiver as its parameters and stops at
`initial_suspend()`, which is `suspend_always`. -/
def awaitable_sender.connect {Result X Receiver : Type}
    (self : awaitable_sender Result X) (receiver : Receiver) :
    detail.sender_task Result X Receiver :=
  ⟨⟨self.awaitable_, receiver, coroutine_state.initial_suspend, []⟩⟩

/-- Modelled from the spec: the wrapped computation reaches its "single
value-or-exception outcome" and resumes the coroutine that is suspended in
`co_await` on it, if one is. -/
def awaitable.finish {Result X E Receiver : Type}
    [receiver Receiver (List Result) (error_payload E X) (Receiver × Option X)]
    (task : detail.sender_task Result X Receiver) : detail.sender_task Result X Receiver :=
  match task.coro_.state with
  | coroutine_state.co_await_suspended => ⟨task.coro_.resume⟩
  | _ => task

/-! ## Suspension of the driving coroutine -/

/-- The state of affairs that every step of the driving coroutine keeps,
relative to the signals `base` the receiver held when it was connected: the
coroutine is not left running; every completion call was made while the
coroutine was suspended at a `co_yield`; the receiver holds one signal more
for each completion call; no call has been made as long as the coroutine has
not come to a `co_yield`; at most two calls have been made, and at most one
when the receiver's `set_value` does not throw. -/
def detail.coroutine_frame.delivers_suspended {Result X V Err : Type}
    (base : List (Signal V Err))
    (frame : detail.coroutine_frame Result X (throwing_receiver V Err X)) : Prop :=
  frame.state ≠ coroutine_state.running ∧
  (∀ st ∈ frame.completed_in, st = coroutine_state.co_yield_suspended) ∧
  frame.receiver.received.length = base.length + frame.completed_in.length ∧
  ((frame.state = coroutine_state.initial_suspend ∨
      frame.state = coroutine_state.co_await_suspended) → frame.completed_in = []) ∧
  frame.completed_in.length ≤ 2 ∧
  (frame.receiver.set_value_throws = none → frame.completed_in.length ≤ 1)

/-! ## Declared value and error types of `via_sender` -/

/-- The C++ type of an error payload: `std::exception_ptr`, or another error
type, named by a value of `Ty`. -/
inductive error_type (Ty : Type) where
  | exception_ptr
  | other (t : Ty)
  deriving DecidableEq, Repr

/-- The C++ type of an error payload, `ty` naming the type of the error
values that are not a `std::exception_ptr`. -/
def error_payload.type_of {E X Ty : Type} (ty : E → Ty) : error_payload E X → error_type Ty
  | error_payload.error e => error_type.other (ty e)
  | error_payload.exception_ptr _ => error_type.exception_ptr

/-- Modelled from the spec: the type-level declarations of a Sender
(`sender_concepts.hpp` is not part of the excerpt): it "declares, at the type
level, the set of possible value-result tuples and the set of possible error
types it can report".  The member templates `value_types` and `error_types`
are lists of type names. -/
class sender_types (S : Type) (VT ET : outParam Type) where
  value_types : S → List VT
  error_types : S → List ET

/-- Modelled from the spec: `concat_unique_t` of `type_traits.hpp` (not part of
the excerpt), the duplicate-free union of two lists of types. -/
def concat_unique_t {T : Type} [DecidableEq T] (first second : List T) : List T :=
  (first ++ second).dedup

/-- The member template `via_sender::value_types`: that of the predecessor. -/
def via_sender.value_types {Predecessor Successor VT ET : Type}
    [sender_types Predecessor VT ET]
    (self : via_sender Predecessor Successor) : List VT :=
  sender_types.value_types self.pred_

/-- The member template `via_sender::error_types`: `concat_unique_t` of the
predecessor's and the successor's `error_types`. -/
def via_sender.error_types {Predecessor Successor VT SVT ET : Type} [DecidableEq ET]
    [sender_types Predecessor VT ET] [sender_types Successor SVT ET]
    (self : via_sender Predecessor Successor) : List ET :=
  concat_unique_t (sender_types.error_types self.pred_) (sender_types.error_types self.succ_)

instance via_sender.instSenderTypes {Predecessor Successor VT SVT ET : Type} [DecidableEq ET]
    [sender_types Predecessor VT ET] [sender_types Successor SVT ET] :
    sender_types (via_sender Predecessor Successor) VT ET where
  value_types s := s.value_types
  error_types s := s.error_types

/-- A sender of the environment together with the value types and the error
types it declares. -/
structure declared_sender (S VT ET : Type) where
  sender_ : S
  value_types_ : List VT
  error_types_ : List ET

instance declared_sender.instSenderTypes {S VT ET : Type} :
    sender_types (declared_sender S VT ET) VT ET where
  value_types s := s.value_types_
  error_types s := s.error_types_

instance declared_sender.instSender {S VT ET V Err : Type} [sender S V Err] :
    sender (declared_sender S VT ET) V Err where
  start_connected s r := sender.start_connected s.sender_ r

instance declared_sender.instSubmittable {S VT ET Err X : Type} [submittable S Err X] :
    submittable (declared_sender S VT ET) Err X where
  submit s r := submit s.sender_ r

/-- A completion signal is within a declaration: a value has one of the
declared value types, an error one of the declared error types. -/
def Signal.declared_in {V Err VT ET : Type} (vty : V → VT) (ety : Err → ET)
    (values : List VT) (errors : List ET) : Signal V Err → Prop
  | Signal.set_value v => vty v ∈ values
  | Signal.set_error e => ety e ∈ errors
  | Signal.set_done => True

/-! ## Lemmas on `via_sender` -/

section via_lemmas

variable {Pred Succ Values E X R Out : Type}
  [sender Pred Values (error_payload E X)] [submittable Succ (error_payload E X) X]
  [receiver R Values (error_payload E X) Out]

/-- Starting a connected `via_sender` hands the predecessor's signal to the
`predecessor_receiver`. -/
theorem via_start_eq_deliver (pred : Pred) (succ : Succ)
    (o : Signal Values (error_payload E X)) (hpred : completes_with pred o) (r : R) :
    cpo.start ((via succ pred).connect r) =
      o.deliver (via_sender.predecessor_receiver.mk succ r) := by
  unfold cpo.start via_sender.connect via cpo.connect
  exact hpred _ _ _

/-- A `predecessor_receiver` whose successor completes. -/
theorem predecessor_receiver_deliver_of_completes (succ : Succ)
    (o : Signal Values (error_payload E X)) (c : Signal Unit (error_payload E X))
    (hsucc : submit_completes_with succ c) (r : R) :
    o.deliver (via_sender.predecessor_receiver.mk succ r) =
      match c with
      | Signal.set_value _ => o.deliver r
      | Signal.set_error e2 => cpo.set_error r e2
      | Signal.set_done => cpo.set_done r := by
  cases o <;> cases c <;>
    simp only [Signal.deliver, cpo.set_value, cpo.set_error, cpo.set_done, receiver.set_value,
      receiver.set_error, receiver.set_done, via_sender.predecessor_receiver.value,
      via_sender.predecessor_receiver.error, via_sender.predecessor_receiver.done,
      hsucc _ _ _] <;> rfl

/-- A `predecessor_receiver` whose successor throws on submission: the handler
completes the receiver that has been moved from. -/
theorem predecessor_receiver_deliver_of_throws (succ : Succ)
    (o : Signal Values (error_payload E X)) (x : X)
    (hsucc : submit_throws succ x) (r : R) :
    o.deliver (via_sender.predecessor_receiver.mk succ r) =
      cpo.set_error (receiver.moved_from r) (error_payload.exception_ptr x) := by
  cases o <;>
    simp only [Signal.deliver, cpo.set_value, cpo.set_error, cpo.set_done, receiver.set_value,
      receiver.set_error, receiver.set_done, via_sender.predecessor_receiver.value,
      via_sender.predecessor_receiver.error, via_sender.predecessor_receiver.done,
      hsucc _ _ _] <;> rfl

end via_lemmas

/-- An `outcome_sender` completes with its outcome. -/
theorem outcome_sender_completes_with {V Err : Type} (b : blocking_kind) (o : Signal V Err) :
    completes_with (outcome_sender.mk b o) o :=
  fun _ _ _ _ => rfl

/-- A `submit_sender` that completes does so on submission. -/
theorem submit_sender_completes_with {Err X : Type} (b : blocking_kind) (c : Signal Unit Err) :
    submit_completes_with (submit_sender.mk b (submit_behaviour.completes c) : submit_sender Err X) c :=
  fun _ _ _ _ => rfl

/-- A `submit_sender` that throws does so on submission. -/
theorem submit_sender_throws {Err X : Type} (b : blocking_kind) (x : X) :
    submit_throws (submit_sender.mk b (submit_behaviour.throws x) : submit_sender Err X) x :=
  fun _ _ _ _ => rfl

/-! ## Properties of `via_sender` -/

/-- C1 (via forwarding identity).  For every predecessor outcome `o` (a value
pack, an error or cancellation), when the successor is submitted without
throwing and completes with its value signal, the final receiver is given
exactly `o`, once, after whatever it had recorded before. -/
theorem via_forwarding_identity {Pred Succ Values E X : Type}
    [sender Pred Values (error_payload E X)] [submittable Succ (error_payload E X) X]
    (pred : Pred) (succ : Succ) (o : Signal Values (error_payload E X))
    (hpred : completes_with pred o)
    (hsucc : submit_completes_with succ (Signal.set_value ()))
    (r : recording_receiver Values (error_payload E X)) :
    cpo.start ((via succ pred).connect r) = ⟨r.received ++ [o]⟩ := by
  rw [via_start_eq_deliver pred succ o hpred r,
    predecessor_receiver_deliver_of_completes succ o _ hsucc r]
  cases o <;> rfl

/-- Witness of C1: a predecessor yielding `42` under a successor that
succeeds. -/
theorem via_forwarding_identity_witness :
    cpo.start ((via
        (submit_sender.mk blocking_kind.maybe
          (submit_behaviour.completes (Signal.set_value ())) : submit_sender (error_payload Nat Nat) Nat)
        (outcome_sender.mk blocking_kind.maybe (Signal.set_value 42) :
          outcome_sender Nat (error_payload Nat Nat))).connect
        (recording_receiver.mk [] : recording_receiver Nat (error_payload Nat Nat))) =
      (⟨[Signal.set_value 42]⟩ : recording_receiver Nat (error_payload Nat Nat)) :=
  via_forwarding_identity _ _ (Signal.set_value 42)
    (outcome_sender_completes_with _ _) (submit_sender_completes_with _ _) ⟨[]⟩

/-- C2 (via override on successor failure).  For every predecessor outcome
`o`, when the successor is submitted without throwing and completes with the
error `e2`, the final receiver is given `set_error e2` and nothing else; when
it completes with cancellation, the final receiver is given `set_done` and
nothing else. -/
theorem via_successor_failure_overrides {Pred Succ Values E X : Type}
    [sender Pred Values (error_payload E X)] [submittable Succ (error_payload E X) X]
    (pred : Pred) (succ : Succ) (o : Signal Values (error_payload E X))
    (hpred : completes_with pred o)
    (r : recording_receiver Values (error_payload E X)) :
    (∀ e2 : error_payload E X, submit_completes_with succ (Signal.set_error e2) →
      cpo.start ((via succ pred).connect r) = ⟨r.received ++ [Signal.set_error e2]⟩) ∧
    (submit_completes_with succ Signal.set_done →
      cpo.start ((via succ pred).connect r) = ⟨r.received ++ [Signal.set_done]⟩) := by
  constructor
  · intro e2 hsucc
    rw [via_start_eq_deliver pred succ o hpred r,
      predecessor_receiver_deliver_of_completes succ o _ hsucc r]
    rfl
  · intro hsucc
    rw [via_start_eq_deliver pred succ o hpred r,
      predecessor_receiver_deliver_of_completes succ o _ hsucc r]
    rfl

/-- Witness of C2: a predecessor yielding `42` under a successor that fails
with the error `5`, and under one that is cancelled. -/
theorem via_successor_failure_overrides_witness :
    cpo.start ((via
        (submit_sender.mk blocking_kind.maybe
          (submit_behaviour.completes (Signal.set_error (error_payload.error 5))) :
          submit_sender (error_payload Nat Nat) Nat)
        (outcome_sender.mk blocking_kind.maybe (Signal.set_value 42) :
          outcome_sender Nat (error_payload Nat Nat))).connect
        (recording_receiver.mk [] : recording_receiver Nat (error_payload Nat Nat))) =
      (⟨[Signal.set_error (error_payload.error 5)]⟩ :
        recording_receiver Nat (error_payload Nat Nat)) ∧
    cpo.start ((via
        (submit_sender.mk blocking_kind.maybe
          (submit_behaviour.completes Signal.set_done) :
          submit_sender (error_payload Nat Nat) Nat)
        (outcome_sender.mk blocking_kind.maybe (Signal.set_value 42) :
          outcome_sender Nat (error_payload Nat Nat))).connect
        (recording_receiver.mk [] : recording_receiver Nat (error_payload Nat Nat))) =
      (⟨[Signal.set_done]⟩ : recording_receiver Nat (error_payload Nat Nat)) :=
  ⟨(via_successor_failure_overrides _ _ (Signal.set_value 42)
      (outcome_sender_completes_with _ _) ⟨[]⟩).1 _ (submit_sender_completes_with _ _),
   (via_successor_failure_overrides _ _ (Signal.set_value 42)
      (outcome_sender_completes_with _ _) ⟨[]⟩).2 (submit_sender_completes_with _ _)⟩

/-- C3 (exactly-once completion of `via_sender`).  For every predecessor
outcome `o`: when the successor completes with any signal `c`, the final
receiver is given exactly one signal, whether it is moved by copying or owns
its state; when the submission of the successor throws `x`, a final receiver
that is moved by copying is given exactly one signal, and a final receiver
that owns its state is given none, the handler calling `cpo::set_error` on
the member `receiver_` after it has been moved into the adapter. -/
theorem via_completes_exactly_once {V E X : Type} (bp bs : blocking_kind)
    (o : Signal V (error_payload E X)) (c : Signal Unit (error_payload E X)) (x : X)
    (log : List (Signal V (error_payload E X))) :
    (∃ sig : Signal V (error_payload E X),
      cpo.start ((via (submit_sender.mk bs (submit_behaviour.completes c) :
          submit_sender (error_payload E X) X)
        (outcome_sender.mk bp o)).connect (recording_receiver.mk log)) =
        ⟨log ++ [sig]⟩) ∧
    (∃ sig : Signal V (error_payload E X),
      cpo.start ((via (submit_sender.mk bs (submit_behaviour.completes c) :
          submit_sender (error_payload E X) X)
        (outcome_sender.mk bp o)).connect (owning_receiver.mk log true)) =
        ⟨log ++ [sig], true⟩) ∧
    (∃ sig : Signal V (error_payload E X),
      cpo.start ((via (submit_sender.mk bs (submit_behaviour.throws x) :
          submit_sender (error_payload E X) X)
        (outcome_sender.mk bp o)).connect (recording_receiver.mk log)) =
        ⟨log ++ [sig]⟩) ∧
    cpo.start ((via (submit_sender.mk bs (submit_behaviour.throws x) :
        submit_sender (error_payload E X) X)
      (outcome_sender.mk bp o)).connect (owning_receiver.mk log true)) =
      ⟨log, false⟩ := by
  refine ⟨?_, ?_, ?_, ?_⟩
  · cases c with
    | set_value u => exact ⟨o, by cases o <;> rfl⟩
    | set_error e2 => exact ⟨Signal.set_error e2, by cases o <;> rfl⟩
    | set_done => exact ⟨Signal.set_done, by cases o <;> rfl⟩
  · cases c with
    | set_value u => exact ⟨o, by cases o <;> rfl⟩
    | set_error e2 => exact ⟨Signal.set_error e2, by cases o <;> rfl⟩
    | set_done => exact ⟨Signal.set_done, by cases o <;> rfl⟩
  · exact ⟨Signal.set_error (error_payload.exception_ptr x), by cases o <;> rfl⟩
  · cases o <;> rfl

/-- C4 (via submission failure).  For every predecessor outcome `o`, when the
submission of the successor throws `x`, the whole run on a final receiver of
any kind is the one call of `cpo::set_error`, with the current exception `x`,
on the receiver that has been moved from: none of the adapters is completed
and `o` is not delivered.  A final receiver that is moved by copying is given
`set_error` with `x`; a final receiver that owns its state is given
nothing. -/
theorem via_submission_failure {V E X : Type} (bp bs : blocking_kind)
    (o : Signal V (error_payload E X)) (x : X)
    (log : List (Signal V (error_payload E X))) :
    (∀ (R Out : Type) [receiver R V (error_payload E X) Out] (a : R),
      cpo.start ((via (submit_sender.mk bs (submit_behaviour.throws x) :
          submit_sender (error_payload E X) X)
        (outcome_sender.mk bp o)).connect a) =
        cpo.set_error (receiver.moved_from a) (std.current_exception x)) ∧
    cpo.start ((via (submit_sender.mk bs (submit_behaviour.throws x) :
        submit_sender (error_payload E X) X)
      (outcome_sender.mk bp o)).connect (recording_receiver.mk log)) =
      ⟨log ++ [Signal.set_error (error_payload.exception_ptr x)]⟩ ∧
    cpo.start ((via (submit_sender.mk bs (submit_behaviour.throws x) :
        submit_sender (error_payload E X) X)
      (outcome_sender.mk bp o)).connect (owning_receiver.mk log true)) =
      ⟨log, false⟩ := by
  refine ⟨?_, ?_, ?_⟩
  · intro R Out _ a
    cases o <;> rfl
  · cases o <;> rfl
  · cases o <;> rfl

/-! ## Blocking trait of `via_sender` -/

/-- C5 (blocking-trait inference table).  The function answers what the table
of the specification gives exactly at the pairs other than "predecessor
`always_inline`, successor not `always_inline`"; whenever the predecessor
reports `always_inline` it answers `always_inline`, its second test reading
the predecessor's kind twice and never the successor's.  So for the successor
kinds `never`, `always` and `maybe` under an `always_inline` predecessor the
answer is `always_inline` where the table gives `maybe`, `always` and
`maybe`. -/
theorem via_blocking_table {Pred Succ : Type} [has_blocking Pred] [has_blocking Succ]
    (pred : Pred) (succ : Succ) :
    (cpo.blocking (via succ pred) =
        via_sender.blocking_spec (cpo.blocking pred) (cpo.blocking succ) ↔
      ¬ (cpo.blocking pred = blocking_kind.always_inline ∧
          cpo.blocking succ ≠ blocking_kind.always_inline)) ∧
    (cpo.blocking pred = blocking_kind.always_inline ↔
      cpo.blocking (via succ pred) = blocking_kind.always_inline) ∧
    (via_sender.blocking_spec blocking_kind.always_inline blocking_kind.never =
        blocking_kind.maybe ∧
      via_sender.blocking_spec blocking_kind.always_inline blocking_kind.always =
        blocking_kind.always ∧
      via_sender.blocking_spec blocking_kind.always_inline blocking_kind.maybe =
        blocking_kind.maybe) := by
  have key : ∀ p s : blocking_kind,
      ((if p = blocking_kind.never ∧ s = blocking_kind.never then blocking_kind.never
        else if p = blocking_kind.always_inline ∧ p = blocking_kind.always_inline then
          blocking_kind.always_inline
        else if (p = blocking_kind.always_inline ∨ p = blocking_kind.always) ∧
            (s = blocking_kind.always_inline ∨ s = blocking_kind.always) then
          blocking_kind.always
        else blocking_kind.maybe) = via_sender.blocking_spec p s ↔
        ¬ (p = blocking_kind.always_inline ∧ s ≠ blocking_kind.always_inline)) ∧
      (p = blocking_kind.always_inline ↔
        (if p = blocking_kind.never ∧ s = blocking_kind.never then blocking_kind.never
        else if p = blocking_kind.always_inline ∧ p = blocking_kind.always_inline then
          blocking_kind.always_inline
        else if (p = blocking_kind.always_inline ∨ p = blocking_kind.always) ∧
            (s = blocking_kind.always_inline ∨ s = blocking_kind.always) then
          blocking_kind.always
        else blocking_kind.maybe) = blocking_kind.always_inline) := by
    intro p s
    cases p <;> cases s <;> decide
  exact ⟨(key (cpo.blocking pred) (cpo.blocking succ)).1,
    (key (cpo.blocking pred) (cpo.blocking succ)).2, by decide, by decide, by decide⟩

/-- C6 (blocking-trait composition cases).  A `via_sender` whose predecessor
and successor both report `never` reports `never`; a `via_sender` whose
predecessor reports `always_inline` and whose successor reports `maybe`
reports `always_inline`, not `maybe`. -/
theorem via_blocking_composition_cases {V Err X : Type} (o : Signal V Err)
    (b : submit_behaviour Err X) :
    cpo.blocking (via (submit_sender.mk blocking_kind.never b)
        (outcome_sender.mk blocking_kind.never o)) = blocking_kind.never ∧
    cpo.blocking (via (submit_sender.mk blocking_kind.maybe b)
        (outcome_sender.mk blocking_kind.always_inline o)) = blocking_kind.always_inline ∧
    cpo.blocking (via (submit_sender.mk blocking_kind.maybe b)
        (outcome_sender.mk blocking_kind.always_inline o)) ≠ blocking_kind.maybe := by
  refine ⟨rfl, rfl, ?_⟩
  intro h
  have h2 : blocking_kind.always_inline = blocking_kind.maybe := h
  cases h2

/-! ## Properties of `never_sender` -/

/-- A cancellation request on an operation without a constructed callback
changes nothing. -/
theorem request_stop_of_unregistered {Receiver V Err : Type}
    [receiver Receiver V Err Receiver] (r : Receiver) :
    request_stop (⟨r, none⟩ : never_sender.operation Receiver) = ⟨r, none⟩ :=
  rfl

/-- Repeated cancellation requests on an operation without a constructed
callback change nothing. -/
theorem request_stop_iterate_of_unregistered {Receiver V Err : Type}
    [receiver Receiver V Err Receiver] (r : Receiver) (n : Nat) :
    request_stop^[n] (⟨r, none⟩ : never_sender.operation Receiver) = ⟨r, none⟩ := by
  induction n with
  | zero => rfl
  | succ k ih => rw [Function.iterate_succ_apply, request_stop_of_unregistered, ih]

/-- C7 (never_sender cancellation).  For a receiver whose stop token reports
`stop_possible()`, connecting yields an operation and starting it registers
the callback without completing the receiver; the first cancellation request
destroys the callback object and gives the receiver `set_done`; after any
number `n + 1` of requests the receiver has been given `set_done` exactly
once and neither `set_value` nor `set_error`. -/
theorem never_sender_cancellation {V Err : Type} (NDEBUG : Bool)
    (r : stoppable_receiver V Err)
    (hpossible : (get_stop_token r).stop_possible = true) :
    ∃ connected started : never_sender.operation (stoppable_receiver V Err),
      never_sender.connect never_sender.mk r = some connected ∧
      connected.start NDEBUG = some started ∧
      started.receiver_.received = r.received ∧
      (request_stop started).stopCallback_ = none ∧
      (∀ n : Nat, (request_stop^[n + 1] started).receiver_.received =
        r.received ++ [Signal.set_done]) ∧
      (∀ (n : Nat) (sig : Signal V Err),
        sig ∈ (request_stop^[n] started).receiver_.received →
          sig ∈ r.received ∨ sig = Signal.set_done) := by
  have htype : (get_stop_token r).is_stop_never_possible_v = false := by
    cases h : (get_stop_token r).is_stop_never_possible_v with
    | false => rfl
    | true =>
      have := (get_stop_token r).never_possible_answers_false h
      rw [hpossible] at this
      exact absurd this (by decide)
  have hfirst : request_stop (⟨r, some ⟨get_stop_token r⟩⟩ :
      never_sender.operation (stoppable_receiver V Err)) =
      ⟨cpo.set_done r, none⟩ := by
    simp [request_stop, hpossible, never_sender.operation.cancel_callback]
  have hafter : ∀ n : Nat, (request_stop^[n + 1] (⟨r, some ⟨get_stop_token r⟩⟩ :
      never_sender.operation (stoppable_receiver V Err))).receiver_.received =
      r.received ++ [Signal.set_done] := by
    intro n
    rw [Function.iterate_succ_apply, hfirst, request_stop_iterate_of_unregistered]
    rfl
  refine ⟨⟨r, none⟩, ⟨r, some ⟨get_stop_token r⟩⟩, ?_, ?_, rfl, ?_, hafter, ?_⟩
  · simp [never_sender.connect, htype]
  · simp [never_sender.operation.start, hpossible]
  · rw [hfirst]
  · intro n sig hsig
    cases n with
    | zero => exact Or.inl hsig
    | succ k =>
      rw [hafter k] at hsig
      rcases List.mem_append.mp hsig with h | h
      · exact Or.inl h
      · exact Or.inr (List.mem_singleton.mp h)

/-- Witness of C7: a receiver that has recorded nothing, with a token for
which stop is possible. -/
theorem never_sender_cancellation_witness :
    ∃ connected started : never_sender.operation (stoppable_receiver Nat Nat),
      never_sender.connect never_sender.mk
        (⟨[], ⟨false, true, by decide⟩⟩ : stoppable_receiver Nat Nat) = some connected ∧
      connected.start false = some started ∧
      started.receiver_.received = [] ∧
      (request_stop started).stopCallback_ = none ∧
      (∀ n : Nat, (request_stop^[n + 1] started).receiver_.received =
        [] ++ [Signal.set_done]) ∧
      (∀ (n : Nat) (sig : Signal Nat Nat),
        sig ∈ (request_stop^[n] started).receiver_.received →
          sig ∈ [] ∨ sig = Signal.set_done) :=
  never_sender_cancellation false ⟨[], ⟨false, true, by decide⟩⟩ rfl

/-- Counterexample to C8: a receiver whose token type admits cancellation
while the token itself reports that stop is not possible; `connect` yields an
operation, and with `assert` compiled out `start` registers a callback that
no request can ever fire. -/
theorem never_sender_connect_accepts_impossible_stop :
    (get_stop_token
      (⟨[], ⟨false, false, by decide⟩⟩ : stoppable_receiver Nat Nat)).stop_possible = false ∧
    (never_sender.connect never_sender.mk
      (⟨[], ⟨false, false, by decide⟩⟩ : stoppable_receiver Nat Nat)).isSome = true ∧
    ((never_sender.connect never_sender.mk
      (⟨[], ⟨false, false, by decide⟩⟩ : stoppable_receiver Nat Nat)).bind
        (never_sender.operation.start true)).isSome = true := by
  refine ⟨rfl, rfl, rfl⟩

/-- C8, amended (never_sender misuse).  For a receiver whose stop-token type
can never be stopped, `connect` yields no operation: the instantiation is
rejected at build time.  For any other receiver `connect` yields an operation
that holds the receiver and no callback, also when the token reports that stop
is not possible; on such an operation `start` fails its assertion when
assertions are compiled in. -/
theorem never_sender_misuse_rejected {V Err : Type} (r : stoppable_receiver V Err) :
    ((get_stop_token r).is_stop_never_possible_v = true →
      never_sender.connect never_sender.mk r = none) ∧
    ((get_stop_token r).is_stop_never_possible_v = false →
      never_sender.connect never_sender.mk r = some ⟨r, none⟩) ∧
    ((get_stop_token r).stop_possible = false →
      ∀ callback, never_sender.operation.start false
        (⟨r, callback⟩ : never_sender.operation (stoppable_receiver V Err)) = none) := by
  refine ⟨?_, ?_, ?_⟩
  · intro h
    simp [never_sender.connect, h]
  · intro h
    simp [never_sender.connect, h]
  · intro h callback
    simp [never_sender.operation.start, h]

/-- Witness of C8, amended: a token of a type that can never be stopped, and a
token of a stoppable type that reports that stop is not possible. -/
theorem never_sender_misuse_rejected_witness :
    never_sender.connect never_sender.mk
      (⟨[], ⟨true, false, by decide⟩⟩ : stoppable_receiver Nat Nat) = none ∧
    never_sender.connect never_sender.mk
      (⟨[], ⟨false, false, by decide⟩⟩ : stoppable_receiver Nat Nat) =
        some ⟨⟨[], ⟨false, false, by decide⟩⟩, none⟩ ∧
    never_sender.operation.start false
      (⟨⟨[], ⟨false, false, by decide⟩⟩, none⟩ :
        never_sender.operation (stoppable_receiver Nat Nat)) = none :=
  ⟨(never_sender_misuse_rejected ⟨[], ⟨true, false, by decide⟩⟩).1 rfl,
   (never_sender_misuse_rejected ⟨[], ⟨false, false, by decide⟩⟩).2.1 rfl,
   (never_sender_misuse_rejected ⟨[], ⟨false, false, by decide⟩⟩).2.2 rfl none⟩

/-! ## Properties of `awaitable_sender` -/

/-- Resuming a coroutine that has terminated changes nothing. -/
theorem resume_of_terminated {Result X E Receiver : Type}
    [receiver Receiver (List Result) (error_payload E X) (Receiver × Option X)]
    (frame : detail.coroutine_frame Result X Receiver)
    (h : frame.state = coroutine_state.terminated) :
    frame.resume = frame := by
  unfold detail.coroutine_frame.resume
  simp only [h]

/-- Resuming a coroutine that is suspended at a `co_yield` terminates the
process and leaves the receiver as it is. -/
theorem resume_of_co_yield_suspended {Result X E Receiver : Type}
    [receiver Receiver (List Result) (error_payload E X) (Receiver × Option X)]
    (frame : detail.coroutine_frame Result X Receiver)
    (h : frame.state = coroutine_state.co_yield_suspended) :
    frame.resume.state = coroutine_state.terminated ∧
      frame.resume.receiver = frame.receiver := by
  unfold detail.coroutine_frame.resume
  simp only [h]
  exact ⟨rfl, rfl⟩

/-- Resuming over and over a coroutine that is suspended at a `co_yield` or
has terminated leaves the receiver as it is. -/
theorem resume_iterate_receiver {Result X E Receiver : Type}
    [receiver Receiver (List Result) (error_payload E X) (Receiver × Option X)]
    (n : Nat) (frame : detail.coroutine_frame Result X Receiver)
    (h : frame.state = coroutine_state.co_yield_suspended ∨
      frame.state = coroutine_state.terminated) :
    (detail.coroutine_frame.resume^[n] frame).receiver = frame.receiver := by
  induction n generalizing frame with
  | zero => rfl
  | succ k ih =>
    rw [Function.iterate_succ_apply]
    rcases h with h | h
    · rw [ih _ (Or.inr (resume_of_co_yield_suspended frame h).1)]
      exact (resume_of_co_yield_suspended frame h).2
    · rw [resume_of_terminated frame h]
      exact ih frame (Or.inr h)

/-- The frame once the wrapped computation has finished: the coroutine is
suspended at a `co_yield`, or the process has terminated, and the receiver has
been given the completion calls of the outcome. -/
theorem awaitable_sender_finished {Result X E : Type} (a : awaitable Result X)
    (r : throwing_receiver (List Result) (error_payload E X) X) :
    ((awaitable.finish (awaitable_sender.connect ⟨a⟩ r).start).coro_.state =
        coroutine_state.co_yield_suspended ∨
      (awaitable.finish (awaitable_sender.connect ⟨a⟩ r).start).coro_.state =
        coroutine_state.terminated) ∧
      (awaitable.finish (awaitable_sender.connect ⟨a⟩ r).start).coro_.receiver.received =
        r.received ++
          (match a.await_resume with
            | Except.ok v =>
              match r.set_value_throws with
              | none => [Signal.set_value (if a.is_void_result then [] else [v])]
              | some thrown =>
                [Signal.set_value (if a.is_void_result then [] else [v]),
                  Signal.set_error (error_payload.exception_ptr thrown)]
            | Except.error x => [Signal.set_error (error_payload.exception_ptr x)]) := by
  obtain ⟨isVoid, ready, res⟩ := a
  obtain ⟨received, valueThrows, errorThrows⟩ := r
  cases ready <;> cases res <;> cases isVoid <;> cases valueThrows <;> cases errorThrows <;>
    first
    | exact ⟨Or.inl rfl, by simp [awaitable.finish, detail.sender_task.start,
        awaitable_sender.connect, detail.coroutine_frame.resume, awaitable_sender.connect.body,
        awaitable_sender.connect.after_co_await, awaitable_sender.connect.after_try,
        detail.sender_task.promise_type.yield_value, detail.coroutine_frame.complete,
        detail.sender_task.promise_type.unhandled_exception, detail.coroutine_frame.terminate,
        cpo.set_value, cpo.set_error, receiver.set_value, receiver.set_error,
        std.current_exception]⟩
    | exact ⟨Or.inr rfl, by simp [awaitable.finish, detail.sender_task.start,
        awaitable_sender.connect, detail.coroutine_frame.resume, awaitable_sender.connect.body,
        awaitable_sender.connect.after_co_await, awaitable_sender.connect.after_try,
        detail.sender_task.promise_type.yield_value, detail.coroutine_frame.complete,
        detail.sender_task.promise_type.unhandled_exception, detail.coroutine_frame.terminate,
        cpo.set_value, cpo.set_error, receiver.set_value, receiver.set_error,
        std.current_exception]⟩

/-- Counterexample to C9: a computation that yields `42` at once, on a receiver
whose `set_value` exits with the exception `7`.  Starting the operation makes
two completion calls on the receiver, `set_value` with `42` and then
`set_error` with the exception `7`. -/
theorem awaitable_sender_two_signals_when_set_value_throws :
    (awaitable_sender.connect
      (⟨⟨false, true, Except.ok 42⟩⟩ : awaitable_sender Nat Nat)
      (⟨[], some 7, none⟩ :
        throwing_receiver (List Nat) (error_payload Nat Nat) Nat)).start.coro_.receiver.received =
      [Signal.set_value [42], Signal.set_error (error_payload.exception_ptr 7)] := by
  rfl

/-- C9, amended (awaitable_sender bridging).  For every wrapped computation,
connecting delivers nothing; starting delivers nothing as long as the
computation has not finished; once it has finished the receiver has been
given, when its `set_value` returns normally, exactly one signal: `set_value`
with the result, `set_value` with no argument when the result type is `void`,
or `set_error` with the exception thrown by the computation; when `set_value`
exits with an exception, that call is followed by `set_error` with that
exception.  No `set_done` is delivered, and resuming the task any number of
times afterwards delivers nothing more. -/
theorem awaitable_sender_bridging {Result X E : Type} (a : awaitable Result X)
    (r : throwing_receiver (List Result) (error_payload E X) X) :
    (awaitable_sender.connect ⟨a⟩ r).coro_.receiver = r ∧
    (a.await_ready = false → (awaitable_sender.connect ⟨a⟩ r).start.coro_.receiver = r) ∧
    (awaitable.finish (awaitable_sender.connect ⟨a⟩ r).start).coro_.receiver.received =
      r.received ++
        (match a.await_resume with
          | Except.ok v =>
            match r.set_value_throws with
            | none => [Signal.set_value (if a.is_void_result then [] else [v])]
            | some thrown =>
              [Signal.set_value (if a.is_void_result then [] else [v]),
                Signal.set_error (error_payload.exception_ptr thrown)]
          | Except.error x => [Signal.set_error (error_payload.exception_ptr x)]) ∧
    (∀ sig ∈ (awaitable.finish (awaitable_sender.connect ⟨a⟩ r).start).coro_.receiver.received,
      sig = Signal.set_done → sig ∈ r.received) ∧
    ∀ n : Nat,
      (detail.coroutine_frame.resume^[n]
        (awaitable.finish (awaitable_sender.connect ⟨a⟩ r).start).coro_).receiver =
      (awaitable.finish (awaitable_sender.connect ⟨a⟩ r).start).coro_.receiver := by
  refine ⟨rfl, ?_, (awaitable_sender_finished a r).2, ?_, ?_⟩
  · intro h
    obtain ⟨isVoid, ready, res⟩ := a
    simp only at h
    subst h
    rfl
  · intro sig hsig hdone
    rw [(awaitable_sender_finished a r).2] at hsig
    rcases List.mem_append.mp hsig with h | h
    · exact h
    · subst hdone
      cases hres : a.await_resume with
      | ok v =>
        cases hthrows : r.set_value_throws <;> simp [hres, hthrows] at h
      | error x => simp [hres] at h
  · intro n
    exact resume_iterate_receiver n _ (awaitable_sender_finished a r).1

/-- Witness of C9, amended: a computation that is not ready at once and yields
`42`, one that is ready at once and throws `7`, and one that yields `42` to a
receiver whose `set_value` exits with the exception `7`. -/
theorem awaitable_sender_bridging_witness :
    ((awaitable_sender.connect
      (⟨⟨false, false, Except.ok 42⟩⟩ : awaitable_sender Nat Nat)
      (⟨[], none, none⟩ :
        throwing_receiver (List Nat) (error_payload Nat Nat) Nat)).start.coro_.receiver =
      ⟨[], none, none⟩) ∧
    ((awaitable.finish (awaitable_sender.connect
      (⟨⟨false, false, Except.ok 42⟩⟩ : awaitable_sender Nat Nat)
      (⟨[], none, none⟩ :
        throwing_receiver (List Nat) (error_payload Nat Nat) Nat)).start).coro_.receiver.received =
      [] ++ [Signal.set_value [42]]) ∧
    ((awaitable.finish (awaitable_sender.connect
      (⟨⟨false, true, Except.error 7⟩⟩ : awaitable_sender Nat Nat)
      (⟨[], none, none⟩ :
        throwing_receiver (List Nat) (error_payload Nat Nat) Nat)).start).coro_.receiver.received =
      [] ++ [Signal.set_error (error_payload.exception_ptr 7)]) ∧
    ((awaitable.finish (awaitable_sender.connect
      (⟨⟨false, true, Except.ok 42⟩⟩ : awaitable_sender Nat Nat)
      (⟨[], some 7, none⟩ :
        throwing_receiver (List Nat) (error_payload Nat Nat) Nat)).start).coro_.receiver.received =
      [] ++ [Signal.set_value [42], Signal.set_error (error_payload.exception_ptr 7)]) :=
  ⟨(awaitable_sender_bridging ⟨false, false, Except.ok 42⟩ ⟨[], none, none⟩).2.1 rfl,
   (awaitable_sender_bridging ⟨false, false, Except.ok 42⟩ ⟨[], none, none⟩).2.2.1,
   (awaitable_sender_bridging ⟨false, true, Except.error 7⟩ ⟨[], none, none⟩).2.2.1,
   (awaitable_sender_bridging ⟨false, true, Except.ok 42⟩ ⟨[], some 7, none⟩).2.2.1⟩

/-! ## Properties of `then_execute` -/

section then_execute_lemmas

variable {Pred Succ Values E X R Out : Type}
  [sender Pred Values (error_payload E X)] [submittable Succ (error_payload E X) X]
  [receiver R Values (error_payload E X) Out]

/-- A started `typed_via` operation whose successor completes. -/
theorem typed_via_start_of_completes (pred : Pred) (succ : Succ)
    (o : Signal Values (error_payload E X)) (c : Signal Unit (error_payload E X))
    (hpred : completes_with pred o) (hsucc : submit_completes_with succ c) (r : R) :
    sender.start_connected (typed_via succ pred) r =
      match c with
      | Signal.set_value _ => o.deliver r
      | Signal.set_error e2 => cpo.set_error r e2
      | Signal.set_done => cpo.set_done r := by
  show typed_via_sender.start_connected (typed_via succ pred) r = _
  unfold typed_via_sender.start_connected typed_via
  simp only [hpred _ _ _, hsucc _ _ _]
  cases o <;> cases c <;> rfl

/-- A started `typed_via` operation whose successor throws on submission. -/
theorem typed_via_start_of_throws (pred : Pred) (succ : Succ) (x : X)
    (hsucc : submit_throws succ x) (r : R) :
    sender.start_connected (typed_via succ pred) r =
      cpo.set_error r (error_payload.exception_ptr x) := by
  show typed_via_sender.start_connected (typed_via succ pred) r = _
  unfold typed_via_sender.start_connected typed_via
  simp only [hsucc _ _ _]
  rfl

/-- A started `via` operation is a started `typed_via` operation, for a
predecessor and a successor that keep to the protocol, when the successor
completes. -/
theorem via_start_eq_typed_via_start_of_completes (pred : Pred) (succ : Succ)
    (o : Signal Values (error_payload E X)) (hpred : completes_with pred o)
    (c : Signal Unit (error_payload E X)) (hc : submit_completes_with succ c) (r : R) :
    sender.start_connected (typed_via succ pred) r =
      sender.start_connected (via succ pred) r := by
  show _ = cpo.start ((via succ pred).connect r)
  rw [via_start_eq_deliver pred succ o hpred r,
    typed_via_start_of_completes pred succ o c hpred hc r,
    predecessor_receiver_deliver_of_completes succ o c hc r]

/-- A started `via` operation is a started `typed_via` operation when the
submission of the successor throws, on a receiver that a move leaves as it
was. -/
theorem via_start_eq_typed_via_start_of_throws (pred : Pred) (succ : Succ)
    (o : Signal Values (error_payload E X)) (hpred : completes_with pred o)
    (x : X) (hx : submit_throws succ x) (r : R) (hmove : receiver.moved_from r = r) :
    sender.start_connected (typed_via succ pred) r =
      sender.start_connected (via succ pred) r := by
  show _ = cpo.start ((via succ pred).connect r)
  rw [via_start_eq_deliver pred succ o hpred r,
    typed_via_start_of_throws pred succ x hx r,
    predecessor_receiver_deliver_of_throws succ o x hx r, hmove]

end then_execute_lemmas

/-- The function `then_execute` away from the handler of `via`.  For a
predecessor `p` that completes with `o` and a scheduler whose `schedule(s)`
either throws on submission or completes, `then_execute s p f`, the
composition `transform (typed_via (schedule s) p) f`, does what
`transform (via (schedule s) p) f` does on every receiver when the
submission of `schedule(s)` does not throw, and on every receiver that a move
leaves as it was.  When scheduling succeeds, a value `v` of `p` reaches the
final receiver as `f v` and an error or cancellation of `p` reaches it
unchanged; when scheduling fails with an error, with cancellation or by
throwing, that outcome reaches the final receiver; in none of the cases but
the first does the result hold a value of `f`. -/
theorem then_execute_is_transform_via {Scheduler ScheduleSender Pred V W E X : Type}
    [scheduler Scheduler ScheduleSender] [sender Pred V (error_payload E X)]
    [submittable ScheduleSender (error_payload E X) X]
    (s : Scheduler) (p : Pred) (f : V → W) (o : Signal V (error_payload E X))
    (hp : completes_with p o)
    (hs : (∃ x, submit_throws (cpo.schedule s) x) ∨
      (∃ c, submit_completes_with (cpo.schedule s) c))
    (r : recording_receiver W (error_payload E X)) :
    (∀ (R Out : Type) [receiver R W (error_payload E X) Out] (a : R),
      ((∃ c, submit_completes_with (cpo.schedule s) c) ∨ receiver.moved_from a = a) →
      cpo.start (cpo.connect (then_execute s p f) a) =
        cpo.start (cpo.connect (then_execute_spec s p f) a)) ∧
    (submit_completes_with (cpo.schedule s) (Signal.set_value ()) →
      cpo.start (cpo.connect (then_execute s p f) r) =
        ⟨r.received ++
          [match o with
            | Signal.set_value v => Signal.set_value (f v)
            | Signal.set_error e => Signal.set_error e
            | Signal.set_done => Signal.set_done]⟩) ∧
    (∀ e2, submit_completes_with (cpo.schedule s) (Signal.set_error e2) →
      cpo.start (cpo.connect (then_execute s p f) r) =
        ⟨r.received ++ [Signal.set_error e2]⟩) ∧
    (submit_completes_with (cpo.schedule s) Signal.set_done →
      cpo.start (cpo.connect (then_execute s p f) r) =
        ⟨r.received ++ [Signal.set_done]⟩) ∧
    (∀ x, submit_throws (cpo.schedule s) x →
      cpo.start (cpo.connect (then_execute s p f) r) =
        ⟨r.received ++ [Signal.set_error (error_payload.exception_ptr x)]⟩) := by
  refine ⟨?_, ?_, ?_, ?_, ?_⟩
  · intro R Out _ a hcase
    rcases hcase with ⟨c, hc⟩ | hmove
    · exact via_start_eq_typed_via_start_of_completes p (cpo.schedule s) o hp c hc
        (transform_receiver.mk f a)
    · rcases hs with ⟨x, hx⟩ | ⟨c, hc⟩
      · refine via_start_eq_typed_via_start_of_throws p (cpo.schedule s) o hp x hx
          (transform_receiver.mk f a) ?_
        show (⟨f, receiver.moved_from a⟩ : transform_receiver (V → W) R) = ⟨f, a⟩
        rw [hmove]
      · exact via_start_eq_typed_via_start_of_completes p (cpo.schedule s) o hp c hc
          (transform_receiver.mk f a)
  · intro h
    show sender.start_connected (typed_via (cpo.schedule s) p) (transform_receiver.mk f r) = _
    rw [typed_via_start_of_completes p _ o _ hp h]
    cases o <;> rfl
  · intro e2 h
    show sender.start_connected (typed_via (cpo.schedule s) p) (transform_receiver.mk f r) = _
    rw [typed_via_start_of_completes p _ o _ hp h]
    rfl
  · intro h
    show sender.start_connected (typed_via (cpo.schedule s) p) (transform_receiver.mk f r) = _
    rw [typed_via_start_of_completes p _ o _ hp h]
    rfl
  · intro x h
    show sender.start_connected (typed_via (cpo.schedule s) p) (transform_receiver.mk f r) = _
    rw [typed_via_start_of_throws p _ x h]
    rfl

/-- Instances of `then_execute_is_transform_via`: a predecessor yielding `20`
under the function that adds one, on a scheduler whose `schedule()` succeeds, on one whose
`schedule()` fails with the error `5`, and on one whose submission throws
`7`; on the last, with a receiver that is moved by copying, `then_execute`
does what `transform (via (schedule s) p) f` does. -/
theorem then_execute_is_transform_via_witness :
    (cpo.start (cpo.connect
      (then_execute
        (⟨⟨blocking_kind.maybe, submit_behaviour.completes (Signal.set_value ())⟩⟩ :
          context_scheduler (error_payload Nat Nat) Nat)
        (⟨blocking_kind.maybe, Signal.set_value 20⟩ : outcome_sender Nat (error_payload Nat Nat))
        (fun v : Nat => v + 1))
      (⟨[]⟩ : recording_receiver Nat (error_payload Nat Nat))) =
      ⟨[Signal.set_value 21]⟩) ∧
    (cpo.start (cpo.connect
      (then_execute
        (⟨⟨blocking_kind.maybe,
            submit_behaviour.completes (Signal.set_error (error_payload.error 5))⟩⟩ :
          context_scheduler (error_payload Nat Nat) Nat)
        (⟨blocking_kind.maybe, Signal.set_value 20⟩ : outcome_sender Nat (error_payload Nat Nat))
        (fun v : Nat => v + 1))
      (⟨[]⟩ : recording_receiver Nat (error_payload Nat Nat))) =
      ⟨[Signal.set_error (error_payload.error 5)]⟩) ∧
    (cpo.start (cpo.connect
      (then_execute
        (⟨⟨blocking_kind.maybe, submit_behaviour.throws 7⟩⟩ :
          context_scheduler (error_payload Nat Nat) Nat)
        (⟨blocking_kind.maybe, Signal.set_value 20⟩ : outcome_sender Nat (error_payload Nat Nat))
        (fun v : Nat => v + 1))
      (⟨[]⟩ : recording_receiver Nat (error_payload Nat Nat))) =
      ⟨[Signal.set_error (error_payload.exception_ptr 7)]⟩) ∧
    (cpo.start (cpo.connect
      (then_execute
        (⟨⟨blocking_kind.maybe, submit_behaviour.throws 7⟩⟩ :
          context_scheduler (error_payload Nat Nat) Nat)
        (⟨blocking_kind.maybe, Signal.set_value 20⟩ : outcome_sender Nat (error_payload Nat Nat))
        (fun v : Nat => v + 1))
      (⟨[]⟩ : recording_receiver Nat (error_payload Nat Nat))) =
    cpo.start (cpo.connect
      (then_execute_spec
        (⟨⟨blocking_kind.maybe, submit_behaviour.throws 7⟩⟩ :
          context_scheduler (error_payload Nat Nat) Nat)
        (⟨blocking_kind.maybe, Signal.set_value 20⟩ : outcome_sender Nat (error_payload Nat Nat))
        (fun v : Nat => v + 1))
      (⟨[]⟩ : recording_receiver Nat (error_payload Nat Nat)))) :=
  ⟨(then_execute_is_transform_via
      (⟨⟨blocking_kind.maybe, submit_behaviour.completes (Signal.set_value ())⟩⟩ :
        context_scheduler (error_payload Nat Nat) Nat)
      (⟨blocking_kind.maybe, Signal.set_value 20⟩ : outcome_sender Nat (error_payload Nat Nat))
      (fun v : Nat => v + 1) (Signal.set_value 20)
      (outcome_sender_completes_with _ _)
      (Or.inr ⟨Signal.set_value (), submit_sender_completes_with _ _⟩) ⟨[]⟩).2.1
      (submit_sender_completes_with _ _),
   (then_execute_is_transform_via
      (⟨⟨blocking_kind.maybe,
          submit_behaviour.completes (Signal.set_error (error_payload.error 5))⟩⟩ :
        context_scheduler (error_payload Nat Nat) Nat)
      (⟨blocking_kind.maybe, Signal.set_value 20⟩ : outcome_sender Nat (error_payload Nat Nat))
      (fun v : Nat => v + 1) (Signal.set_value 20)
      (outcome_sender_completes_with _ _)
      (Or.inr ⟨Signal.set_error (error_payload.error 5), submit_sender_completes_with _ _⟩)
      ⟨[]⟩).2.2.1 _ (submit_sender_completes_with _ _),
   (then_execute_is_transform_via
      (⟨⟨blocking_kind.maybe, submit_behaviour.throws 7⟩⟩ :
        context_scheduler (error_payload Nat Nat) Nat)
      (⟨blocking_kind.maybe, Signal.set_value 20⟩ : outcome_sender Nat (error_payload Nat Nat))
      (fun v : Nat => v + 1) (Signal.set_value 20)
      (outcome_sender_completes_with _ _)
      (Or.inl ⟨7, submit_sender_throws _ _⟩) ⟨[]⟩).2.2.2.2 7 (submit_sender_throws _ _),
   (then_execute_is_transform_via
      (⟨⟨blocking_kind.maybe, submit_behaviour.throws 7⟩⟩ :
        context_scheduler (error_payload Nat Nat) Nat)
      (⟨blocking_kind.maybe, Signal.set_value 20⟩ : outcome_sender Nat (error_payload Nat Nat))
      (fun v : Nat => v + 1) (Signal.set_value 20)
      (outcome_sender_completes_with _ _)
      (Or.inl ⟨7, submit_sender_throws _ _⟩) ⟨[]⟩).1 _ _
      (⟨[]⟩ : recording_receiver Nat (error_payload Nat Nat)) (Or.inr rfl)⟩


/-! ## Suspend-before-deliver in `awaitable_sender` -/

/-- The frame made by `connect` has made no completion call. -/
theorem connect_delivers_suspended {Result X E : Type} (a : awaitable Result X)
    (r : throwing_receiver (List Result) (error_payload E X) X) :
    (awaitable_sender.connect ⟨a⟩ r).coro_.delivers_suspended r.received := by
  refine ⟨?_, ?_, rfl, fun _ => rfl, Nat.zero_le 2, fun _ => Nat.zero_le 1⟩
  · intro h
    cases h
  · intro st h
    cases h

/-- The code after `co_await` makes its completion calls with the coroutine
suspended at a `co_yield`: one call, or two when `set_value` throws. -/
theorem after_co_await_delivers_suspended {Result X E : Type}
    (base : List (Signal (List Result) (error_payload E X)))
    (frame : detail.coroutine_frame Result X
      (throwing_receiver (List Result) (error_payload E X) X))
    (hnone : frame.completed_in = [])
    (hlen : frame.receiver.received.length = base.length) :
    (awaitable_sender.connect.after_co_await frame).delivers_suspended base := by
  obtain ⟨⟨isVoid, ready, res⟩, ⟨received, valueThrows, errorThrows⟩, st, log⟩ := frame
  simp only at hnone hlen
  subst hnone
  cases res <;> cases isVoid <;> cases valueThrows <;> cases errorThrows <;>
    simp [detail.coroutine_frame.delivers_suspended, awaitable_sender.connect.after_co_await,
      awaitable_sender.connect.after_try, detail.sender_task.promise_type.yield_value,
      detail.coroutine_frame.complete, detail.sender_task.promise_type.unhandled_exception,
      detail.coroutine_frame.terminate, cpo.set_value, cpo.set_error, receiver.set_value,
      receiver.set_error, std.current_exception, hlen]

/-- Resuming the driving coroutine keeps `delivers_suspended`. -/
theorem resume_delivers_suspended {Result X E : Type}
    (base : List (Signal (List Result) (error_payload E X)))
    (frame : detail.coroutine_frame Result X
      (throwing_receiver (List Result) (error_payload E X) X))
    (h : frame.delivers_suspended base) :
    frame.resume.delivers_suspended base := by
  obtain ⟨hrun, hall, hlen, hnone, htwo, hone⟩ := h
  unfold detail.coroutine_frame.resume
  cases hst : frame.state with
  | initial_suspend =>
    have hlog := hnone (Or.inl hst)
    simp only
    unfold awaitable_sender.connect.body
    cases hready : frame.awaitable.await_ready with
    | true =>
      simp only [if_true]
      exact after_co_await_delivers_suspended base _ hlog (by rw [hlen, hlog]; rfl)
    | false =>
      simp only [Bool.false_eq_true, if_false]
      refine ⟨?_, hall, hlen, fun _ => hlog, htwo, hone⟩
      intro h
      cases h
  | co_await_suspended =>
    have hlog := hnone (Or.inr hst)
    simp only
    exact after_co_await_delivers_suspended base _ hlog (by rw [hlen, hlog]; rfl)
  | co_yield_suspended =>
    simp only
    refine ⟨?_, hall, hlen, ?_, htwo, hone⟩
    · intro h
      cases h
    · intro h
      rcases h with h | h <;> cases h
  | running => exact absurd hst hrun
  | terminated =>
    simp only
    exact ⟨hrun, hall, hlen, hnone, htwo, hone⟩

/-- Any number of resumptions keeps `delivers_suspended`. -/
theorem resume_iterate_delivers_suspended {Result X E : Type}
    (base : List (Signal (List Result) (error_payload E X))) (n : Nat)
    (frame : detail.coroutine_frame Result X
      (throwing_receiver (List Result) (error_payload E X) X))
    (h : frame.delivers_suspended base) :
    (detail.coroutine_frame.resume^[n] frame).delivers_suspended base := by
  induction n generalizing frame with
  | zero => exact h
  | succ k ih =>
    rw [Function.iterate_succ_apply]
    exact ih _ (resume_delivers_suspended base frame h)

/-- Resuming the driving coroutine leaves alone what the receiver's
`set_value` does. -/
theorem resume_iterate_set_value_throws {Result X E : Type} (n : Nat)
    (frame : detail.coroutine_frame Result X
      (throwing_receiver (List Result) (error_payload E X) X)) :
    (detail.coroutine_frame.resume^[n] frame).receiver.set_value_throws =
      frame.receiver.set_value_throws := by
  induction n generalizing frame with
  | zero => rfl
  | succ k ih =>
    rw [Function.iterate_succ_apply, ih]
    obtain ⟨⟨isVoid, ready, res⟩, ⟨received, valueThrows, errorThrows⟩, st, log⟩ := frame
    cases st <;> cases ready <;> cases res <;> cases isVoid <;> cases valueThrows <;>
      cases errorThrows <;> rfl

/-- Counterexample to C11: a computation that yields `42` at once, on a
receiver whose `set_value` exits with the exception `7`.  After the
`set_value` call the coroutine is resumed, by the exception that leaves
`await_suspend`; the process does not terminate, and a second completion
call, `set_error`, is made from the `co_yield` after the handler. -/
theorem awaitable_sender_resumed_after_throwing_set_value :
    (awaitable_sender.connect
      (⟨⟨false, true, Except.ok 42⟩⟩ : awaitable_sender Nat Nat)
      (⟨[], some 7, none⟩ :
        throwing_receiver (List Nat) (error_payload Nat Nat) Nat)).start.coro_.completed_in =
      [coroutine_state.co_yield_suspended, coroutine_state.co_yield_suspended] ∧
    (awaitable_sender.connect
      (⟨⟨false, true, Except.ok 42⟩⟩ : awaitable_sender Nat Nat)
      (⟨[], some 7, none⟩ :
        throwing_receiver (List Nat) (error_payload Nat Nat) Nat)).start.coro_.state =
      coroutine_state.co_yield_suspended ∧
    (detail.sender_task.promise_type.yield_value
      (⟨⟨false, true, Except.ok 42⟩, ⟨[], some 7, none⟩, coroutine_state.running, []⟩ :
        detail.coroutine_frame Nat Nat
          (throwing_receiver (List Nat) (error_payload Nat Nat) Nat))
      (fun fr => fr.complete (fun r => cpo.set_value r [42]))).1.state =
      coroutine_state.running := by
  exact ⟨rfl, rfl, rfl⟩

/-- C11, amended (awaitable_sender suspend-before-deliver).  On every path of
the driving task, after any number of resumptions from the task made by
`connect`: every completion call on the receiver was made while the coroutine
was suspended at a `co_yield`, none while it was running or suspended in the
`co_await` of the wrapped computation; the receiver holds one signal more for
each such call; at most two calls have been made, and at most one when the
receiver's `set_value` does not throw.  When no completion call throws, the
one call has been made once the wrapped computation has finished and the
coroutine rests at that `co_yield`.  Resuming a coroutine that is suspended
at a `co_yield` terminates the process and delivers nothing, and so does the
normal exit through `return_void`. -/
theorem awaitable_sender_suspend_before_deliver {Result X E : Type} (a : awaitable Result X)
    (r : throwing_receiver (List Result) (error_payload E X) X) :
    (∀ (n : Nat) (st : coroutine_state),
      st ∈ (detail.coroutine_frame.resume^[n]
        (awaitable_sender.connect ⟨a⟩ r).coro_).completed_in →
        st = coroutine_state.co_yield_suspended) ∧
    (∀ n : Nat,
      (detail.coroutine_frame.resume^[n]
        (awaitable_sender.connect ⟨a⟩ r).coro_).receiver.received.length =
      r.received.length +
        (detail.coroutine_frame.resume^[n]
          (awaitable_sender.connect ⟨a⟩ r).coro_).completed_in.length) ∧
    (∀ n : Nat,
      (detail.coroutine_frame.resume^[n]
        (awaitable_sender.connect ⟨a⟩ r).coro_).completed_in.length ≤ 2) ∧
    (r.set_value_throws = none → ∀ n : Nat,
      (detail.coroutine_frame.resume^[n]
        (awaitable_sender.connect ⟨a⟩ r).coro_).completed_in.length ≤ 1) ∧
    (r.set_value_throws = none → r.set_error_throws = none →
      (awaitable.finish (awaitable_sender.connect ⟨a⟩ r).start).coro_.state =
        coroutine_state.co_yield_suspended ∧
      (awaitable.finish (awaitable_sender.connect ⟨a⟩ r).start).coro_.completed_in =
        [coroutine_state.co_yield_suspended]) ∧
    (∀ frame : detail.coroutine_frame Result X
        (throwing_receiver (List Result) (error_payload E X) X),
      frame.state = coroutine_state.co_yield_suspended →
        frame.resume.state = coroutine_state.terminated ∧
        frame.resume.receiver = frame.receiver ∧
        frame.resume.completed_in = frame.completed_in) ∧
    (∀ frame : detail.coroutine_frame Result X
        (throwing_receiver (List Result) (error_payload E X) X),
      (detail.sender_task.promise_type.return_void frame).state =
          coroutine_state.terminated ∧
        (detail.sender_task.promise_type.return_void frame).receiver = frame.receiver ∧
        (detail.sender_task.promise_type.return_void frame).completed_in =
          frame.completed_in) := by
  have hinv := fun n : Nat =>
    resume_iterate_delivers_suspended r.received n _ (connect_delivers_suspended a r)
  refine ⟨fun n => (hinv n).2.1, fun n => (hinv n).2.2.1, fun n => (hinv n).2.2.2.2.1,
    ?_, ?_, ?_, fun frame => ⟨rfl, rfl, rfl⟩⟩
  · intro hvalue n
    refine (hinv n).2.2.2.2.2 ?_
    rw [resume_iterate_set_value_throws]
    exact hvalue
  · intro hvalue herror
    obtain ⟨isVoid, ready, res⟩ := a
    obtain ⟨received, valueThrows, errorThrows⟩ := r
    simp only at hvalue herror
    subst hvalue
    subst herror
    cases ready <;> cases res <;> cases isVoid <;> exact ⟨rfl, rfl⟩
  · intro frame h
    unfold detail.coroutine_frame.resume
    simp only [h]
    exact ⟨rfl, rfl, rfl⟩

/-- Witness of C11, amended: the task of a computation that yields `42` at
once, on a receiver that does not throw, is suspended at a `co_yield` after
`start` with its one call made; resuming it terminates and leaves the receiver
with its one signal. -/
theorem awaitable_sender_suspend_before_deliver_witness :
    (∀ n : Nat,
      (detail.coroutine_frame.resume^[n]
        (awaitable_sender.connect
          (⟨⟨false, true, Except.ok 42⟩⟩ : awaitable_sender Nat Nat)
          (⟨[], none, none⟩ :
            throwing_receiver (List Nat) (error_payload Nat Nat) Nat)).coro_).completed_in.length
        ≤ 1) ∧
    ((awaitable.finish (awaitable_sender.connect
      (⟨⟨false, true, Except.ok 42⟩⟩ : awaitable_sender Nat Nat)
      (⟨[], none, none⟩ :
        throwing_receiver (List Nat) (error_payload Nat Nat) Nat)).start).coro_.state =
        coroutine_state.co_yield_suspended ∧
      (awaitable.finish (awaitable_sender.connect
        (⟨⟨false, true, Except.ok 42⟩⟩ : awaitable_sender Nat Nat)
        (⟨[], none, none⟩ :
          throwing_receiver (List Nat) (error_payload Nat Nat) Nat)).start).coro_.completed_in =
        [coroutine_state.co_yield_suspended]) ∧
    ((awaitable_sender.connect
      (⟨⟨false, true, Except.ok 42⟩⟩ : awaitable_sender Nat Nat)
      (⟨[], none, none⟩ :
        throwing_receiver (List Nat) (error_payload Nat Nat) Nat)).start.coro_.resume.state =
        coroutine_state.terminated ∧
      (awaitable_sender.connect
        (⟨⟨false, true, Except.ok 42⟩⟩ : awaitable_sender Nat Nat)
        (⟨[], none, none⟩ :
          throwing_receiver (List Nat) (error_payload Nat Nat) Nat)).start.coro_.resume.receiver =
        ⟨[Signal.set_value [42]], none, none⟩) :=
  ⟨(awaitable_sender_suspend_before_deliver
      (⟨false, true, Except.ok 42⟩ : awaitable Nat Nat)
      (⟨[], none, none⟩ : throwing_receiver (List Nat) (error_payload Nat Nat) Nat)).2.2.2.1 rfl,
   (awaitable_sender_suspend_before_deliver
      (⟨false, true, Except.ok 42⟩ : awaitable Nat Nat)
      (⟨[], none, none⟩ : throwing_receiver (List Nat) (error_payload Nat Nat) Nat)).2.2.2.2.1
      rfl rfl,
   ⟨((awaitable_sender_suspend_before_deliver
      (⟨false, true, Except.ok 42⟩ : awaitable Nat Nat)
      (⟨[], none, none⟩ :
        throwing_receiver (List Nat) (error_payload Nat Nat) Nat)).2.2.2.2.2.1
      (awaitable_sender.connect
        (⟨⟨false, true, Except.ok 42⟩⟩ : awaitable_sender Nat Nat)
        (⟨[], none, none⟩ :
          throwing_receiver (List Nat) (error_payload Nat Nat) Nat)).start.coro_ rfl).1,
    ((awaitable_sender_suspend_before_deliver
      (⟨false, true, Except.ok 42⟩ : awaitable Nat Nat)
      (⟨[], none, none⟩ :
        throwing_receiver (List Nat) (error_payload Nat Nat) Nat)).2.2.2.2.2.1
      (awaitable_sender.connect
        (⟨⟨false, true, Except.ok 42⟩⟩ : awaitable_sender Nat Nat)
        (⟨[], none, none⟩ :
          throwing_receiver (List Nat) (error_payload Nat Nat) Nat)).start.coro_ rfl).2.1⟩⟩

/-! ## Declared types of `via_sender` -/

/-- Membership in `concat_unique_t` is membership in one of the two lists. -/
theorem mem_concat_unique_t {T : Type} [DecidableEq T] (t : T) (first second : List T) :
    t ∈ concat_unique_t first second ↔ t ∈ first ∨ t ∈ second := by
  unfold concat_unique_t
  rw [List.mem_dedup, List.mem_append]

/-- C12 (declared error set of `via_sender`).  A predecessor that declares the
one error type `0` and yields `42`, under a successor that declares no error
type and whose submission throws `7`, with a final receiver that is moved by
copying.  The final receiver is given `set_error` with a `std::exception_ptr`;
the declared `error_types` of the `via_sender` is the union of the two
component declarations and does not hold that type, the predecessor delivered
a value, and the successor delivered nothing. -/
theorem via_error_types_miss_submit_exception :
    cpo.start ((via
        (⟨⟨blocking_kind.maybe, submit_behaviour.throws 7⟩, [], []⟩ :
          declared_sender (submit_sender (error_payload Nat Nat) Nat) Unit (error_type Nat))
        (⟨⟨blocking_kind.maybe, Signal.set_value 42⟩, [()], [error_type.other 0]⟩ :
          declared_sender (outcome_sender Nat (error_payload Nat Nat)) Unit
            (error_type Nat))).connect
        (recording_receiver.mk [] : recording_receiver Nat (error_payload Nat Nat))) =
      (⟨[Signal.set_error (error_payload.exception_ptr 7)]⟩ :
        recording_receiver Nat (error_payload Nat Nat)) ∧
    (via
        (⟨⟨blocking_kind.maybe, submit_behaviour.throws 7⟩, [], []⟩ :
          declared_sender (submit_sender (error_payload Nat Nat) Nat) Unit (error_type Nat))
        (⟨⟨blocking_kind.maybe, Signal.set_value 42⟩, [()], [error_type.other 0]⟩ :
          declared_sender (outcome_sender Nat (error_payload Nat Nat)) Unit
            (error_type Nat))).error_types = [error_type.other 0] ∧
    error_payload.type_of (fun _ : Nat => 0) (error_payload.exception_ptr 7 : error_payload Nat Nat) ∉
      (via
        (⟨⟨blocking_kind.maybe, submit_behaviour.throws 7⟩, [], []⟩ :
          declared_sender (submit_sender (error_payload Nat Nat) Nat) Unit (error_type Nat))
        (⟨⟨blocking_kind.maybe, Signal.set_value 42⟩, [()], [error_type.other 0]⟩ :
          declared_sender (outcome_sender Nat (error_payload Nat Nat)) Unit
            (error_type Nat))).error_types := by
  refine ⟨rfl, by decide, by decide⟩

/-- The declaration of a `via_sender` away from the exception of a submission.
Let the predecessor complete with `o`, a signal within its declaration.  When
the successor
completes with `c`, an error of `c` being of a type the successor declares,
the final receiver is given one signal, which is `o` or the error or
cancellation of `c`, and which is within the declaration of the
`via_sender`: an error has a type in `error_types`, a value is the
predecessor's and has a type in `value_types`.  When the submission of the
successor throws `x`, a final receiver that is moved by copying is given
`set_error` with the `std::exception_ptr` of `x`. -/
theorem via_declared_types_sound {Pred Succ V E X VT SVT Ty : Type} [DecidableEq Ty]
    [sender Pred V (error_payload E X)] [submittable Succ (error_payload E X) X]
    [sender_types Pred VT (error_type Ty)] [sender_types Succ SVT (error_type Ty)]
    (vty : V → VT) (ty : E → Ty)
    (pred : Pred) (succ : Succ) (o : Signal V (error_payload E X))
    (hpred : completes_with pred o)
    (hdecl : o.declared_in vty (error_payload.type_of ty)
      (sender_types.value_types pred) (sender_types.error_types pred))
    (r : recording_receiver V (error_payload E X)) :
    (∀ c : Signal Unit (error_payload E X), submit_completes_with succ c →
      (∀ e2, c = Signal.set_error e2 →
        error_payload.type_of ty e2 ∈ sender_types.error_types succ) →
      ∃ sig : Signal V (error_payload E X),
        cpo.start ((via succ pred).connect r) = ⟨r.received ++ [sig]⟩ ∧
        sig.declared_in vty (error_payload.type_of ty)
          (via succ pred).value_types (via succ pred).error_types ∧
        ((c = Signal.set_value () ∧ sig = o) ∨
          (∃ e2, c = Signal.set_error e2 ∧ sig = Signal.set_error e2) ∨
          (c = Signal.set_done ∧ sig = Signal.set_done))) ∧
    (∀ x : X, submit_throws succ x →
      cpo.start ((via succ pred).connect r) =
        ⟨r.received ++ [Signal.set_error (error_payload.exception_ptr x)]⟩) := by
  constructor
  · intro c hsucc hsuccdecl
    rw [via_start_eq_deliver pred succ o hpred r,
      predecessor_receiver_deliver_of_completes succ o c hsucc r]
    cases c with
    | set_value u =>
      refine ⟨o, by cases o <;> rfl, ?_, Or.inl ⟨rfl, rfl⟩⟩
      cases o with
      | set_value v => exact hdecl
      | set_error e =>
        exact (mem_concat_unique_t _ _ _).mpr (Or.inl hdecl)
      | set_done => trivial
    | set_error e2 =>
      refine ⟨Signal.set_error e2, rfl, ?_, Or.inr (Or.inl ⟨e2, rfl, rfl⟩)⟩
      exact (mem_concat_unique_t _ _ _).mpr (Or.inr (hsuccdecl e2 rfl))
    | set_done =>
      exact ⟨Signal.set_done, rfl, trivial, Or.inr (Or.inr ⟨rfl, rfl⟩)⟩
  · intro x hsucc
    rw [via_start_eq_deliver pred succ o hpred r,
      predecessor_receiver_deliver_of_throws succ o x hsucc r]
    rfl

/-- An instance of `via_declared_types_sound`: a predecessor that declares the
error type `0` and fails with the error `3`, under a successor that succeeds,
and a predecessor that yields `42` under a successor whose submission throws
`7`. -/
theorem via_declared_types_sound_witness :
    (∃ sig : Signal Nat (error_payload Nat Nat),
      cpo.start ((via
          (⟨⟨blocking_kind.maybe, submit_behaviour.completes (Signal.set_value ())⟩, [()], []⟩ :
            declared_sender (submit_sender (error_payload Nat Nat) Nat) Unit (error_type Nat))
          (⟨⟨blocking_kind.maybe, Signal.set_error (error_payload.error 3)⟩, [()],
              [error_type.other 0]⟩ :
            declared_sender (outcome_sender Nat (error_payload Nat Nat)) Unit
              (error_type Nat))).connect
          (recording_receiver.mk [] : recording_receiver Nat (error_payload Nat Nat))) =
        ⟨[] ++ [sig]⟩ ∧
      sig.declared_in (fun _ : Nat => ()) (error_payload.type_of (fun _ : Nat => 0))
        [()] (concat_unique_t [error_type.other 0] []) ∧
      ((Signal.set_value () = (Signal.set_value () : Signal Unit (error_payload Nat Nat)) ∧
          sig = Signal.set_error (error_payload.error 3)) ∨
        (∃ e2, (Signal.set_value () : Signal Unit (error_payload Nat Nat)) =
            Signal.set_error e2 ∧ sig = Signal.set_error e2) ∨
        ((Signal.set_value () : Signal Unit (error_payload Nat Nat)) = Signal.set_done ∧
          sig = Signal.set_done))) ∧
    cpo.start ((via
        (⟨⟨blocking_kind.maybe, submit_behaviour.throws 7⟩, [], []⟩ :
          declared_sender (submit_sender (error_payload Nat Nat) Nat) Unit (error_type Nat))
        (⟨⟨blocking_kind.maybe, Signal.set_value 42⟩, [()], [error_type.other 0]⟩ :
          declared_sender (outcome_sender Nat (error_payload Nat Nat)) Unit
            (error_type Nat))).connect
        (recording_receiver.mk [] : recording_receiver Nat (error_payload Nat Nat))) =
      ⟨[] ++ [Signal.set_error (error_payload.exception_ptr 7)]⟩ :=
  ⟨(via_declared_types_sound (fun _ : Nat => ()) (fun _ : Nat => 0)
      (⟨⟨blocking_kind.maybe, Signal.set_error (error_payload.error 3)⟩, [()],
          [error_type.other 0]⟩ :
        declared_sender (outcome_sender Nat (error_payload Nat Nat)) Unit (error_type Nat))
      (⟨⟨blocking_kind.maybe, submit_behaviour.completes (Signal.set_value ())⟩, [()], []⟩ :
        declared_sender (submit_sender (error_payload Nat Nat) Nat) Unit (error_type Nat))
      (Signal.set_error (error_payload.error 3))
      (fun _ _ _ _ => rfl) (List.mem_singleton.mpr rfl) ⟨[]⟩).1
      (Signal.set_value ()) (fun _ _ _ _ => rfl) (fun e2 h => by cases h),
   (via_declared_types_sound (fun _ : Nat => ()) (fun _ : Nat => 0)
      (⟨⟨blocking_kind.maybe, Signal.set_value 42⟩, [()], [error_type.other 0]⟩ :
        declared_sender (outcome_sender Nat (error_payload Nat Nat)) Unit (error_type Nat))
      (⟨⟨blocking_kind.maybe, submit_behaviour.throws 7⟩, [], []⟩ :
        declared_sender (submit_sender (error_payload Nat Nat) Nat) Unit (error_type Nat))
      (Signal.set_value 42)
      (fun _ _ _ _ => rfl) (List.mem_singleton.mpr rfl) ⟨[]⟩).2 7 (fun _ _ _ _ => rfl)⟩

end unifex
